import Mathlib

/-!
# Verification of the inforMED diagnostic engine

A shallow embedding, in Lean 4, of the core inference engine of the
inforMED headache-diagnosis program (`data.py` and `engine.py`):

* the knowledge base: the ordered diagnosis catalog, the ordered symptom
  catalog with question texts, and the conditional probability table (CPT);
* the engine: `log2`, `calculate_entropy`, `bayesian_update`,
  `calculate_information_gain` and `get_next_question`.

Probability distributions are `List ℝ` values, exactly as the Python code
passes plain lists of floats; float arithmetic is modelled as exact real
arithmetic.  The CPT holds the exact rational constants written in
`data.py`.  Theorems at the end of the file settle the specified
properties of these functions.
-/

namespace InforMED

/-! ## Knowledge base (`data.py`) -/

/-- The fixed, ordered diagnosis catalog of `data.py` (N = 8). -/
def DIAGNOSES : List String :=
  ["Migraine", "Tension-Type", "Cluster", "Sinus", "Medication Overuse", "Cervicogenic", "Trigeminal Neuralgia", "Hypertensive"]

/-- `NUM_DIAGNOSES = len(DIAGNOSES)` from `data.py`. -/
def NUM_DIAGNOSES : ℕ := DIAGNOSES.length

/-- The ordered symptom catalog of `data.py`: each key `Si` paired with its
question text, in insertion order. -/
def SYMPTOMS : List (String × String) :=
  [("S1", "Is your pain best described as throbbing or pulsating?"),
   ("S2", "Is the pain located primarily on only one side of your head?"),
   ("S3", "Have you experienced nausea or vomiting with this headache?"),
   ("S4", "Does bright light or loud noise bother you during the headache?"),
   ("S5", "Would you rate the pain intensity as severe or disabling?"),
   ("S6", "Did you experience eye redness, tearing, or nasal congestion on the side of the pain?"),
   ("S7", "Does the pain typically last 4-72 hours if untreated?"),
   ("S8", "Does physical activity make the headache worse?"),
   ("S9", "Have you experienced visual disturbances (aura) before the headache?"),
   ("S10", "Is there a family history of similar headaches?"),
   ("S11", "Does the pain occur in brief attacks (15-180 minutes)?"),
   ("S12", "Do you feel restless or agitated during the headache?"),
   ("S13", "Does the pain always occur on the same side?"),
   ("S14", "Do you experience drooping eyelid or constricted pupil on the pain side?"),
   ("S15", "Is there facial pressure or fullness, especially around sinuses?"),
   ("S16", "Do you have thick nasal discharge (yellow or green)?"),
   ("S17", "Is the pain often described as a tight band around the head?"),
   ("S18", "Does the pain feel like steady pressure rather than pulsating?"),
   ("S19", "Can you continue daily activities despite the headache?"),
   ("S20", "Did the headache follow a recent illness (e.g., cold, flu)?"),
   ("S21", "Do you take pain medication more than 10-15 days per month?"),
   ("S22", "Have your headaches become more frequent over time?"),
   ("S23", "Does the pain worsen or start upon waking in the morning?"),
   ("S24", "Is the pain triggered by neck movement or sustained awkward postures?"),
   ("S25", "Do you have limited range of motion in your neck?"),
   ("S26", "Is the pain described as sharp, shooting, or electric shock-like?"),
   ("S27", "Does touching certain areas of your face trigger the pain?"),
   ("S28", "Does the pain last only seconds to 2 minutes per episode?"),
   ("S29", "Do you have high blood pressure or hypertension?"),
   ("S30", "Does the pain feel like pressure at the back of the head?"),
   ("S31", "Have you experienced dizziness or visual changes with the headache?"),
   ("S32", "Does the pain radiate from the neck to the front of the head?"),
   ("S33", "Is the headache present daily or nearly every day?"),
   ("S34", "Do you experience muscle tenderness in the neck or shoulders?"),
   ("S35", "Does the pain occur in multiple episodes throughout the day?"),
   ("S36", "Have you recently stopped or significantly reduced your caffeine intake?")]

/-- The ordered list of symptom identifiers (`SYMPTOMS.keys()`). -/
def symptomKeys : List String := SYMPTOMS.map Prod.fst

/-- Row of the CPT for diagnosis `"Migraine"` in `data.py`. -/
def CPT_Migraine : String → ℚ := fun s => match s with
  | "S1" => 0.90
  | "S2" => 0.75
  | "S3" => 0.85
  | "S4" => 0.90
  | "S5" => 0.80
  | "S6" => 0.10
  | "S7" => 0.85
  | "S8" => 0.85
  | "S9" => 0.30
  | "S10" => 0.70
  | "S11" => 0.05
  | "S12" => 0.10
  | "S13" => 0.40
  | "S14" => 0.05
  | "S15" => 0.15
  | "S16" => 0.05
  | "S17" => 0.10
  | "S18" => 0.15
  | "S19" => 0.20
  | "S20" => 0.15
  | "S21" => 0.40
  | "S22" => 0.50
  | "S23" => 0.30
  | "S24" => 0.15
  | "S25" => 0.20
  | "S26" => 0.05
  | "S27" => 0.05
  | "S28" => 0.02
  | "S29" => 0.15
  | "S30" => 0.20
  | "S31" => 0.35
  | "S32" => 0.10
  | "S33" => 0.25
  | "S34" => 0.30
  | "S35" => 0.15
  | "S36" => 0.40
  | _ => 0

/-- Row of the CPT for diagnosis `"Tension-Type"` in `data.py`. -/
def CPT_TensionType : String → ℚ := fun s => match s with
  | "S1" => 0.10
  | "S2" => 0.20
  | "S3" => 0.10
  | "S4" => 0.20
  | "S5" => 0.30
  | "S6" => 0.05
  | "S7" => 0.40
  | "S8" => 0.20
  | "S9" => 0.02
  | "S10" => 0.30
  | "S11" => 0.05
  | "S12" => 0.10
  | "S13" => 0.10
  | "S14" => 0.02
  | "S15" => 0.10
  | "S16" => 0.05
  | "S17" => 0.90
  | "S18" => 0.85
  | "S19" => 0.70
  | "S20" => 0.10
  | "S21" => 0.35
  | "S22" => 0.40
  | "S23" => 0.40
  | "S24" => 0.30
  | "S25" => 0.25
  | "S26" => 0.05
  | "S27" => 0.15
  | "S28" => 0.02
  | "S29" => 0.15
  | "S30" => 0.40
  | "S31" => 0.15
  | "S32" => 0.20
  | "S33" => 0.45
  | "S34" => 0.70
  | "S35" => 0.10
  | "S36" => 0.50
  | _ => 0

/-- Row of the CPT for diagnosis `"Cluster"` in `data.py`. -/
def CPT_Cluster : String → ℚ := fun s => match s with
  | "S1" => 0.40
  | "S2" => 0.95
  | "S3" => 0.15
  | "S4" => 0.30
  | "S5" => 0.95
  | "S6" => 0.95
  | "S7" => 0.10
  | "S8" => 0.30
  | "S9" => 0.05
  | "S10" => 0.15
  | "S11" => 0.95
  | "S12" => 0.90
  | "S13" => 0.85
  | "S14" => 0.60
  | "S15" => 0.20
  | "S16" => 0.10
  | "S17" => 0.05
  | "S18" => 0.10
  | "S19" => 0.05
  | "S20" => 0.05
  | "S21" => 0.10
  | "S22" => 0.30
  | "S23" => 0.40
  | "S24" => 0.10
  | "S25" => 0.10
  | "S26" => 0.30
  | "S27" => 0.10
  | "S28" => 0.05
  | "S29" => 0.15
  | "S30" => 0.10
  | "S31" => 0.20
  | "S32" => 0.10
  | "S33" => 0.40
  | "S34" => 0.20
  | "S35" => 0.85
  | "S36" => 0.10
  | _ => 0

/-- Row of the CPT for diagnosis `"Sinus"` in `data.py`. -/
def CPT_Sinus : String → ℚ := fun s => match s with
  | "S1" => 0.30
  | "S2" => 0.50
  | "S3" => 0.10
  | "S4" => 0.15
  | "S5" => 0.40
  | "S6" => 0.30
  | "S7" => 0.50
  | "S8" => 0.40
  | "S9" => 0.02
  | "S10" => 0.10
  | "S11" => 0.05
  | "S12" => 0.05
  | "S13" => 0.40
  | "S14" => 0.02
  | "S15" => 0.95
  | "S16" => 0.85
  | "S17" => 0.10
  | "S18" => 0.60
  | "S19" => 0.50
  | "S20" => 0.80
  | "S21" => 0.15
  | "S22" => 0.25
  | "S23" => 0.60
  | "S24" => 0.20
  | "S25" => 0.15
  | "S26" => 0.10
  | "S27" => 0.15
  | "S28" => 0.02
  | "S29" => 0.15
  | "S30" => 0.20
  | "S31" => 0.25
  | "S32" => 0.10
  | "S33" => 0.30
  | "S34" => 0.20
  | "S35" => 0.10
  | "S36" => 0.15
  | _ => 0

/-- Row of the CPT for diagnosis `"Medication Overuse"` in `data.py`. -/
def CPT_MedicationOveruse : String → ℚ := fun s => match s with
  | "S1" => 0.50
  | "S2" => 0.50
  | "S3" => 0.40
  | "S4" => 0.50
  | "S5" => 0.60
  | "S6" => 0.10
  | "S7" => 0.60
  | "S8" => 0.40
  | "S9" => 0.10
  | "S10" => 0.40
  | "S11" => 0.05
  | "S12" => 0.20
  | "S13" => 0.30
  | "S14" => 0.02
  | "S15" => 0.20
  | "S16" => 0.05
  | "S17" => 0.40
  | "S18" => 0.50
  | "S19" => 0.40
  | "S20" => 0.10
  | "S21" => 0.95
  | "S22" => 0.90
  | "S23" => 0.85
  | "S24" => 0.15
  | "S25" => 0.20
  | "S26" => 0.10
  | "S27" => 0.15
  | "S28" => 0.02
  | "S29" => 0.15
  | "S30" => 0.30
  | "S31" => 0.30
  | "S32" => 0.20
  | "S33" => 0.90
  | "S34" => 0.40
  | "S35" => 0.30
  | "S36" => 0.60
  | _ => 0

/-- Row of the CPT for diagnosis `"Cervicogenic"` in `data.py`. -/
def CPT_Cervicogenic : String → ℚ := fun s => match s with
  | "S1" => 0.20
  | "S2" => 0.80
  | "S3" => 0.20
  | "S4" => 0.30
  | "S5" => 0.50
  | "S6" => 0.15
  | "S7" => 0.60
  | "S8" => 0.40
  | "S9" => 0.05
  | "S10" => 0.15
  | "S11" => 0.10
  | "S12" => 0.10
  | "S13" => 0.75
  | "S14" => 0.05
  | "S15" => 0.15
  | "S16" => 0.05
  | "S17" => 0.30
  | "S18" => 0.60
  | "S19" => 0.40
  | "S20" => 0.10
  | "S21" => 0.30
  | "S22" => 0.40
  | "S23" => 0.60
  | "S24" => 0.90
  | "S25" => 0.85
  | "S26" => 0.25
  | "S27" => 0.40
  | "S28" => 0.02
  | "S29" => 0.15
  | "S30" => 0.70
  | "S31" => 0.35
  | "S32" => 0.90
  | "S33" => 0.50
  | "S34" => 0.90
  | "S35" => 0.20
  | "S36" => 0.20
  | _ => 0

/-- Row of the CPT for diagnosis `"Trigeminal Neuralgia"` in `data.py`. -/
def CPT_TrigeminalNeuralgia : String → ℚ := fun s => match s with
  | "S1" => 0.05
  | "S2" => 0.95
  | "S3" => 0.05
  | "S4" => 0.10
  | "S5" => 0.98
  | "S6" => 0.20
  | "S7" => 0.02
  | "S8" => 0.10
  | "S9" => 0.02
  | "S10" => 0.10
  | "S11" => 0.05
  | "S12" => 0.30
  | "S13" => 0.90
  | "S14" => 0.02
  | "S15" => 0.10
  | "S16" => 0.05
  | "S17" => 0.05
  | "S18" => 0.05
  | "S19" => 0.10
  | "S20" => 0.05
  | "S21" => 0.15
  | "S22" => 0.40
  | "S23" => 0.20
  | "S24" => 0.15
  | "S25" => 0.10
  | "S26" => 0.98
  | "S27" => 0.95
  | "S28" => 0.95
  | "S29" => 0.15
  | "S30" => 0.10
  | "S31" => 0.15
  | "S32" => 0.10
  | "S33" => 0.30
  | "S34" => 0.15
  | "S35" => 0.90
  | "S36" => 0.10
  | _ => 0

/-- Row of the CPT for diagnosis `"Hypertensive"` in `data.py`. -/
def CPT_Hypertensive : String → ℚ := fun s => match s with
  | "S1" => 0.40
  | "S2" => 0.30
  | "S3" => 0.30
  | "S4" => 0.25
  | "S5" => 0.60
  | "S6" => 0.15
  | "S7" => 0.40
  | "S8" => 0.50
  | "S9" => 0.10
  | "S10" => 0.25
  | "S11" => 0.10
  | "S12" => 0.20
  | "S13" => 0.25
  | "S14" => 0.02
  | "S15" => 0.15
  | "S16" => 0.05
  | "S17" => 0.30
  | "S18" => 0.60
  | "S19" => 0.40
  | "S20" => 0.10
  | "S21" => 0.20
  | "S22" => 0.50
  | "S23" => 0.70
  | "S24" => 0.20
  | "S25" => 0.20
  | "S26" => 0.15
  | "S27" => 0.10
  | "S28" => 0.02
  | "S29" => 0.95
  | "S30" => 0.75
  | "S31" => 0.70
  | "S32" => 0.30
  | "S33" => 0.60
  | "S34" => 0.30
  | "S35" => 0.25
  | "S36" => 0.25
  | _ => 0

/-- The conditional probability table `CPT[d][s] = P(s = yes | d)` of `data.py`,
as exact rationals. Keys outside the catalogs (a `KeyError` in the source) are
mapped to `0`; every claim below quantifies only over catalog keys. -/
def CPT : String → String → ℚ := fun d => match d with
  | "Migraine" => CPT_Migraine
  | "Tension-Type" => CPT_TensionType
  | "Cluster" => CPT_Cluster
  | "Sinus" => CPT_Sinus
  | "Medication Overuse" => CPT_MedicationOveruse
  | "Cervicogenic" => CPT_Cervicogenic
  | "Trigeminal Neuralgia" => CPT_TrigeminalNeuralgia
  | "Hypertensive" => CPT_Hypertensive
  | _ => fun _ => 0
/-! ## Engine (`engine.py`) -/

noncomputable section

/-- `log2` from `engine.py`: log base 2 of `p`, with `log2 p = 0` whenever
`p` is not strictly positive (`np.log2(p) if p > 0 else 0`). -/
def log2 (p : ℝ) : ℝ := if 0 < p then Real.logb 2 p else 0

/-- `calculate_entropy` from `engine.py`:
`H = -np.sum(P * np.array([log2(p) for p in P]))`, i.e. the negated sum of
the elementwise products `p * log2 p`.  Defined for a list of any length,
as in the source. -/
def calculate_entropy (P : List ℝ) : ℝ :=
  -(P.map (fun p => p * log2 p)).sum

/-- The likelihood `P(answer | d)` used inside the loop of
`bayesian_update`: `CPT[d][symptom_key]`, complemented when the answer is
"no". -/
def likelihood (symptom_key : String) (answer_is_yes : Bool) (diagnosis : String) : ℝ :=
  if answer_is_yes then ((CPT diagnosis symptom_key : ℚ) : ℝ)
  else 1 - ((CPT diagnosis symptom_key : ℚ) : ℝ)

/-- The list `new_P` built by the loop of `bayesian_update`: for each
diagnosis in catalog order, the unnormalized value
`P(answer | d) * current_P[DIAGNOSES.index(d)]`. -/
def new_P (current_P : List ℝ) (symptom_key : String) (answer_is_yes : Bool) : List ℝ :=
  DIAGNOSES.map (fun diagnosis =>
    likelihood symptom_key answer_is_yes diagnosis *
      current_P.getD (DIAGNOSES.indexOf diagnosis) 0)

/-- `bayesian_update` from `engine.py`: build the unnormalized posterior
`new_P`, then divide by its sum, falling back to the uniform distribution
when the sum is zero. -/
def bayesian_update (current_P : List ℝ) (symptom_key : String) (answer_is_yes : Bool) :
    List ℝ :=
  let newP := new_P current_P symptom_key answer_is_yes
  let denominator := newP.sum
  if denominator = 0 then List.replicate NUM_DIAGNOSES (1 / (NUM_DIAGNOSES : ℝ))
  else newP.map (fun p => p / denominator)

/-- The marginal `P(Yes) = Σᵢ CPT[dᵢ][s] * current_P[i]` computed in
`calculate_information_gain` with `enumerate(DIAGNOSES)`. -/
def P_yes (current_P : List ℝ) (symptom_key : String) : ℝ :=
  (DIAGNOSES.enum.map
    (fun x => ((CPT x.2 symptom_key : ℚ) : ℝ) * current_P.getD x.1 0)).sum

/-- `calculate_information_gain` from `engine.py`:
`IG = H(current) - (P(yes) * H(P|yes) + P(no) * H(P|no))`. -/
def calculate_information_gain (current_P : List ℝ) (symptom_key : String) : ℝ :=
  let H_current := calculate_entropy current_P
  let Pyes := P_yes current_P symptom_key
  let Pno := 1 - Pyes
  let H_yes := calculate_entropy (bayesian_update current_P symptom_key true)
  let H_no := calculate_entropy (bayesian_update current_P symptom_key false)
  H_current - (Pyes * H_yes + Pno * H_no)

/-- The `for symptom_key in unasked_keys` loop of `get_next_question`,
threading the running maximum `max_ig` and the running best key
(`ig > max_ig` updates both). -/
def selection_loop (current_P : List ℝ) :
    List String → ℝ → Option String → ℝ × Option String
  | [], max_ig, best_question_key => (max_ig, best_question_key)
  | symptom_key :: rest, max_ig, best_question_key =>
    let ig := calculate_information_gain current_P symptom_key
    if max_ig < ig then selection_loop current_P rest ig (some symptom_key)
    else selection_loop current_P rest max_ig best_question_key

/-- `get_next_question` from `engine.py`.  The result is wrapped in an
outer `Option`: `some r` models a normal return of the Python triple `r`
(`(None, None, 0)` when every symptom has been asked, and
`(question text, symptom key, max_ig)` otherwise), while `none` models the
`KeyError` that `SYMPTOMS[None]` would raise when the loop never finds a
gain above the initial `max_ig = -1`. -/
def get_next_question (current_P : List ℝ) (asked_symptoms : List String) :
    Option (Option String × Option String × ℝ) :=
  let unasked_keys := symptomKeys.filter (fun k => decide (k ∉ asked_symptoms))
  if unasked_keys = [] then some (none, none, 0)
  else
    let result := selection_loop current_P unasked_keys (-1) none
    match result.2 with
    | none => none
    | some best_question_key =>
      (SYMPTOMS.lookup best_question_key).map
        (fun text => (some text, some best_question_key, result.1))

/-- A well-formed probability distribution over the 8 diagnoses, as the
spec describes the inputs of the engine: a list of `N = 8` non-negative
reals summing to 1. -/
def ValidDist (P : List ℝ) : Prop :=
  P.length = NUM_DIAGNOSES ∧ (∀ x ∈ P, 0 ≤ x) ∧ P.sum = 1

/-- The one-hot distribution putting all mass on diagnosis `j`. -/
def oneHot (j : Fin 8) : List ℝ := List.ofFn (fun i => if i = j then 1 else 0)

end

/-! ## Basic facts about the knowledge base -/

/-- The diagnosis at catalog position `i`. -/
def diag (i : Fin 8) : String := DIAGNOSES.getD i ""

lemma NUM_DIAGNOSES_eq : NUM_DIAGNOSES = 8 := rfl

attribute [local semireducible] Rat.ofScientific in
/-- Every CPT entry for catalog keys is a probability in `[0, 1]`. -/
lemma CPT_range : ∀ d ∈ DIAGNOSES, ∀ s ∈ symptomKeys, 0 ≤ CPT d s ∧ CPT d s ≤ 1 := by
  decide

lemma CPT_range_diag (i : Fin 8) {s : String} (hs : s ∈ symptomKeys) :
    (0 : ℝ) ≤ ((CPT (diag i) s : ℚ) : ℝ) ∧ ((CPT (diag i) s : ℚ) : ℝ) ≤ 1 := by
  have hd : diag i ∈ DIAGNOSES := by fin_cases i <;> simp [diag, DIAGNOSES]
  obtain ⟨h0, h1⟩ := CPT_range (diag i) hd s hs
  constructor
  · exact_mod_cast h0
  · exact_mod_cast h1

/-- A list of reals of length 8 is an explicit 8-tuple. -/
lemma length_eq_eight {l : List ℝ} (hl : l.length = 8) :
    ∃ x0 x1 x2 x3 x4 x5 x6 x7, l = [x0, x1, x2, x3, x4, x5, x6, x7] := by
  rcases l with _ | ⟨x0, l⟩; · simp at hl
  rcases l with _ | ⟨x1, l⟩; · simp at hl
  rcases l with _ | ⟨x2, l⟩; · simp at hl
  rcases l with _ | ⟨x3, l⟩; · simp at hl
  rcases l with _ | ⟨x4, l⟩; · simp at hl
  rcases l with _ | ⟨x5, l⟩; · simp at hl
  rcases l with _ | ⟨x6, l⟩; · simp at hl
  rcases l with _ | ⟨x7, l⟩; · simp at hl
  rcases l with _ | ⟨x8, l⟩
  · exact ⟨x0, x1, x2, x3, x4, x5, x6, x7, rfl⟩
  · simp at hl

/-- `new_P` written positionally: entry `i` multiplies the likelihood of the
`i`-th diagnosis with the `i`-th entry of the prior. -/
lemma new_P_eq_ofFn (P : List ℝ) (s : String) (b : Bool) :
    new_P P s b = List.ofFn (fun i : Fin 8 => likelihood s b (diag i) * P.getD i 0) := by
  simp [new_P, DIAGNOSES, diag, List.ofFn_succ]

/-! ## Sum and entropy bridges -/

lemma new_P_explicit (P : List ℝ) (s : String) (b : Bool) :
    new_P P s b =
      [likelihood s b "Migraine" * P.getD 0 0,
       likelihood s b "Tension-Type" * P.getD 1 0,
       likelihood s b "Cluster" * P.getD 2 0,
       likelihood s b "Sinus" * P.getD 3 0,
       likelihood s b "Medication Overuse" * P.getD 4 0,
       likelihood s b "Cervicogenic" * P.getD 5 0,
       likelihood s b "Trigeminal Neuralgia" * P.getD 6 0,
       likelihood s b "Hypertensive" * P.getD 7 0] := by
  simp [new_P, DIAGNOSES]

lemma P_yes_explicit (P : List ℝ) (s : String) :
    P_yes P s =
      ((CPT "Migraine" s : ℚ) : ℝ) * P.getD 0 0 +
      ((CPT "Tension-Type" s : ℚ) : ℝ) * P.getD 1 0 +
      ((CPT "Cluster" s : ℚ) : ℝ) * P.getD 2 0 +
      ((CPT "Sinus" s : ℚ) : ℝ) * P.getD 3 0 +
      ((CPT "Medication Overuse" s : ℚ) : ℝ) * P.getD 4 0 +
      ((CPT "Cervicogenic" s : ℚ) : ℝ) * P.getD 5 0 +
      ((CPT "Trigeminal Neuralgia" s : ℚ) : ℝ) * P.getD 6 0 +
      ((CPT "Hypertensive" s : ℚ) : ℝ) * P.getD 7 0 := by
  simp [P_yes, DIAGNOSES, List.enum_cons, List.enumFrom_cons]
  ring

lemma P_yes_eq_new_P_sum (P : List ℝ) (s : String) :
    P_yes P s = (new_P P s true).sum := by
  rw [P_yes_explicit, new_P_explicit]
  simp [likelihood]
  ring

lemma new_P_false_sum {P : List ℝ} (hl : P.length = 8) (s : String) :
    (new_P P s false).sum = P.sum - P_yes P s := by
  obtain ⟨x0, x1, x2, x3, x4, x5, x6, x7, rfl⟩ := length_eq_eight hl
  rw [new_P_explicit, P_yes_explicit]
  simp [likelihood]
  ring

lemma getD_nonneg {P : List ℝ} (hP : ∀ x ∈ P, 0 ≤ x) (n : ℕ) : 0 ≤ P.getD n 0 := by
  induction P generalizing n with
  | nil => simp [List.getD]
  | cons a t ih =>
    cases n with
    | zero => simpa using hP a (by simp)
    | succ m => simpa using ih (fun x hx => hP x (by simp [hx])) m

lemma likelihood_mem_Icc {s : String} (hs : s ∈ symptomKeys) (b : Bool) (i : Fin 8) :
    0 ≤ likelihood s b (diag i) ∧ likelihood s b (diag i) ≤ 1 := by
  obtain ⟨h0, h1⟩ := CPT_range_diag i hs
  cases b
  · have h : likelihood s false (diag i) = 1 - ((CPT (diag i) s : ℚ) : ℝ) := rfl
    rw [h]; constructor <;> linarith
  · have h : likelihood s true (diag i) = ((CPT (diag i) s : ℚ) : ℝ) := rfl
    rw [h]; constructor <;> linarith

lemma new_P_nonneg {P : List ℝ} (hP : ∀ x ∈ P, 0 ≤ x) {s : String}
    (hs : s ∈ symptomKeys) (b : Bool) : ∀ x ∈ new_P P s b, 0 ≤ x := by
  rw [new_P_eq_ofFn]
  intro x hx
  rw [List.mem_ofFn] at hx
  obtain ⟨i, rfl⟩ := hx
  exact mul_nonneg (likelihood_mem_Icc hs b i).1 (getD_nonneg hP i)

lemma mul_log2_eq {x : ℝ} (hx : 0 ≤ x) :
    x * log2 x = -(Real.negMulLog x / Real.log 2) := by
  rcases lt_or_eq_of_le hx with h | h
  · have hlog : log2 x = Real.log x / Real.log 2 := by
      rw [log2, if_pos h, Real.logb]
    rw [hlog, Real.negMulLog]
    field_simp
  · rw [← h]
    simp [log2]

lemma calculate_entropy_eq_negMulLog {P : List ℝ} (hP : ∀ x ∈ P, 0 ≤ x) :
    calculate_entropy P = (P.map Real.negMulLog).sum / Real.log 2 := by
  induction P with
  | nil => simp [calculate_entropy]
  | cons a t ih =>
    have ha := hP a (by simp)
    have ih2 := ih fun x hx => hP x (by simp [hx])
    have hterm := mul_log2_eq ha
    simp only [calculate_entropy, List.map_cons, List.sum_cons] at *
    rw [neg_add, hterm, ih2, add_div, neg_neg]

/-! ## Bayesian update: branch lemmas and invariants -/

lemma sum_map_div (l : List ℝ) (d : ℝ) :
    (l.map (fun p => p / d)).sum = l.sum / d := by
  induction l with
  | nil => simp
  | cons a t ih => simp [ih, add_div]

lemma list_nonneg_sum_zero {l : List ℝ} (h0 : ∀ x ∈ l, 0 ≤ x) (h : l.sum = 0) :
    ∀ x ∈ l, x = 0 := by
  induction l with
  | nil => simp
  | cons a t ih =>
    have ha := h0 a (by simp)
    have ht : 0 ≤ t.sum := List.sum_nonneg fun x hx => h0 x (by simp [hx])
    have hsum : a + t.sum = 0 := by simpa using h
    have ha0 : a = 0 := by linarith
    have ht0 : t.sum = 0 := by linarith
    intro x hx
    rcases List.mem_cons.1 hx with rfl | hx
    · exact ha0
    · exact ih (fun y hy => h0 y (by simp [hy])) ht0 x hx

lemma bayesian_update_of_sum_ne_zero {P : List ℝ} {s : String} {b : Bool}
    (h : (new_P P s b).sum ≠ 0) :
    bayesian_update P s b = (new_P P s b).map (fun p => p / (new_P P s b).sum) := by
  simp only [bayesian_update]
  rw [if_neg h]

lemma bayesian_update_of_sum_eq_zero {P : List ℝ} {s : String} {b : Bool}
    (h : (new_P P s b).sum = 0) :
    bayesian_update P s b = List.replicate 8 ((1 : ℝ) / 8) := by
  simp only [bayesian_update]
  rw [if_pos h]
  norm_num [NUM_DIAGNOSES_eq]

lemma bayesian_update_getD {P : List ℝ} (s : String) (b : Bool) (i : Fin 8)
    (h : (new_P P s b).sum ≠ 0) :
    (bayesian_update P s b).getD i 0
      = likelihood s b (diag i) * P.getD i 0 / (new_P P s b).sum := by
  rw [bayesian_update_of_sum_ne_zero h]
  set d := (new_P P s b).sum with hd
  rw [new_P_explicit]
  fin_cases i <;> simp [diag, DIAGNOSES]

lemma new_P_entry_eq_zero {P : List ℝ} {s : String} {b : Bool}
    (hpos : ∀ x ∈ P, 0 ≤ x) (hs : s ∈ symptomKeys)
    (h : (new_P P s b).sum = 0) (i : Fin 8) :
    likelihood s b (diag i) * P.getD i 0 = 0 := by
  refine list_nonneg_sum_zero (new_P_nonneg hpos hs b) h _ ?_
  rw [new_P_eq_ofFn, List.mem_ofFn]
  exact ⟨i, rfl⟩

lemma likelihood_add (s : String) (d : String) :
    likelihood s true d + likelihood s false d = 1 := by
  simp [likelihood]

/-- Law of total probability, entrywise: mixing the two posteriors with
weights `P(yes)` and `1 - P(yes)` recovers the prior. -/
lemma total_probability_entry {P : List ℝ} (hlen : P.length = NUM_DIAGNOSES)
    (hpos : ∀ x ∈ P, 0 ≤ x) (hsum : P.sum = 1)
    {s : String} (hs : s ∈ symptomKeys) (i : Fin 8) :
    P_yes P s * (bayesian_update P s true).getD i 0
      + (1 - P_yes P s) * (bayesian_update P s false).getD i 0 = P.getD i 0 := by
  have hT : P_yes P s = (new_P P s true).sum := P_yes_eq_new_P_sum P s
  have hF : (new_P P s false).sum = 1 - P_yes P s := by
    rw [new_P_false_sum hlen, hsum]
  have hmix : likelihood s true (diag i) * P.getD i 0
      + likelihood s false (diag i) * P.getD i 0 = P.getD i 0 := by
    rw [← add_mul, likelihood_add, one_mul]
  by_cases hy : (new_P P s true).sum = 0
  · have hu : likelihood s true (diag i) * P.getD i 0 = 0 :=
      new_P_entry_eq_zero hpos hs hy i
    have ht0 : P_yes P s = 0 := by rw [hT, hy]
    have hfne : (new_P P s false).sum ≠ 0 := by rw [hF, ht0]; norm_num
    have hone : (new_P P s false).sum = 1 := by rw [hF, ht0]; norm_num
    rw [bayesian_update_getD s false i hfne, hone, ht0]
    rw [hu, zero_add] at hmix
    rw [div_one, hmix]
    ring
  · by_cases hn : (new_P P s false).sum = 0
    · have hv : likelihood s false (diag i) * P.getD i 0 = 0 :=
        new_P_entry_eq_zero hpos hs hn i
      have ht1 : P_yes P s = 1 := by
        have h2 := hF
        rw [hn] at h2
        linarith
      have hysum : (new_P P s true).sum = 1 := by rw [← hT, ht1]
      rw [bayesian_update_getD s true i hy, hysum, ht1]
      rw [hv, add_zero] at hmix
      rw [div_one, hmix]
      ring
    · have hTne : P_yes P s ≠ 0 := by rw [hT]; exact hy
      have hfne1 : (1 : ℝ) - P_yes P s ≠ 0 := by rw [← hF]; exact hn
      rw [bayesian_update_getD s true i hy, bayesian_update_getD s false i hn, ← hT, hF]
      have e1 : P_yes P s * (likelihood s true (diag i) * P.getD i 0 / P_yes P s)
          = likelihood s true (diag i) * P.getD i 0 := by
        rw [mul_comm, div_mul_cancel₀ _ hTne]
      have e2 : (1 - P_yes P s) * (likelihood s false (diag i) * P.getD i 0 / (1 - P_yes P s))
          = likelihood s false (diag i) * P.getD i 0 := by
        rw [mul_comm, div_mul_cancel₀ _ hfne1]
      rw [e1, e2]
      exact hmix

/-! ## Distribution invariants of the update -/

lemma bayesian_update_length (P : List ℝ) (s : String) (b : Bool) :
    (bayesian_update P s b).length = NUM_DIAGNOSES := by
  by_cases h : (new_P P s b).sum = 0
  · rw [bayesian_update_of_sum_eq_zero h]; rfl
  · rw [bayesian_update_of_sum_ne_zero h, List.length_map]
    rw [new_P, List.length_map]
    rfl

lemma bayesian_update_sum_eq_one (P : List ℝ) (s : String) (b : Bool) :
    (bayesian_update P s b).sum = 1 := by
  by_cases h : (new_P P s b).sum = 0
  · rw [bayesian_update_of_sum_eq_zero h]
    norm_num [List.sum_replicate, nsmul_eq_mul]
  · rw [bayesian_update_of_sum_ne_zero h, sum_map_div, div_self h]

lemma bayesian_update_nonneg {P : List ℝ} (hpos : ∀ x ∈ P, 0 ≤ x) {s : String}
    (hs : s ∈ symptomKeys) (b : Bool) : ∀ x ∈ bayesian_update P s b, 0 ≤ x := by
  by_cases h : (new_P P s b).sum = 0
  · rw [bayesian_update_of_sum_eq_zero h]
    intro x hx
    rw [List.eq_of_mem_replicate hx]
    norm_num
  · rw [bayesian_update_of_sum_ne_zero h]
    intro x hx
    rw [List.mem_map] at hx
    obtain ⟨u, hu, rfl⟩ := hx
    have hd : 0 ≤ (new_P P s b).sum := List.sum_nonneg (new_P_nonneg hpos hs b)
    exact div_nonneg (new_P_nonneg hpos hs b u hu) hd

/-! ## Concavity of entropy and non-negativity of information gain -/

lemma negMulLog_mix {t q r : ℝ} (ht0 : 0 ≤ t) (ht1 : t ≤ 1) (hq : 0 ≤ q) (hr : 0 ≤ r) :
    t * Real.negMulLog q + (1 - t) * Real.negMulLog r
      ≤ Real.negMulLog (t * q + (1 - t) * r) := by
  have h : t • Real.negMulLog q + (1 - t) • Real.negMulLog r
      ≤ Real.negMulLog (t • q + (1 - t) • r) :=
    Real.concaveOn_negMulLog.2 (Set.mem_Ici.2 hq) (Set.mem_Ici.2 hr)
      ht0 (by linarith) (by ring)
  simpa [smul_eq_mul] using h

lemma likelihood_Icc_name {s : String} (hs : s ∈ symptomKeys) {d : String}
    (hd : d ∈ DIAGNOSES) (b : Bool) : 0 ≤ likelihood s b d ∧ likelihood s b d ≤ 1 := by
  obtain ⟨h0, h1⟩ := CPT_range d hd s hs
  have h2 : (0 : ℝ) ≤ ((CPT d s : ℚ) : ℝ) := by exact_mod_cast h0
  have h3 : ((CPT d s : ℚ) : ℝ) ≤ 1 := by exact_mod_cast h1
  cases b
  · have h : likelihood s false d = 1 - ((CPT d s : ℚ) : ℝ) := rfl
    rw [h]; constructor <;> linarith
  · have h : likelihood s true d = ((CPT d s : ℚ) : ℝ) := rfl
    rw [h]; constructor <;> linarith

lemma new_P_eight (s : String) (b : Bool) (x0 x1 x2 x3 x4 x5 x6 x7 : ℝ) :
    new_P [x0, x1, x2, x3, x4, x5, x6, x7] s b =
      [likelihood s b "Migraine" * x0,
       likelihood s b "Tension-Type" * x1,
       likelihood s b "Cluster" * x2,
       likelihood s b "Sinus" * x3,
       likelihood s b "Medication Overuse" * x4,
       likelihood s b "Cervicogenic" * x5,
       likelihood s b "Trigeminal Neuralgia" * x6,
       likelihood s b "Hypertensive" * x7] := by
  rfl

lemma entropy_negMulLog_eight (x0 x1 x2 x3 x4 x5 x6 x7 : ℝ)
    (h0 : 0 ≤ x0) (h1 : 0 ≤ x1) (h2 : 0 ≤ x2) (h3 : 0 ≤ x3) (h4 : 0 ≤ x4) (h5 : 0 ≤ x5) (h6 : 0 ≤ x6) (h7 : 0 ≤ x7) :
    calculate_entropy [x0, x1, x2, x3, x4, x5, x6, x7] =
      (Real.negMulLog x0 + Real.negMulLog x1 + Real.negMulLog x2 + Real.negMulLog x3 + Real.negMulLog x4 + Real.negMulLog x5 + Real.negMulLog x6 + Real.negMulLog x7) / Real.log 2 := by
  have hmem : ∀ x ∈ [x0, x1, x2, x3, x4, x5, x6, x7], (0:ℝ) ≤ x := by
    intro x hx
    simp only [List.mem_cons, List.not_mem_nil, or_false] at hx
    rcases hx with rfl | rfl | rfl | rfl | rfl | rfl | rfl | rfl <;> assumption
  rw [calculate_entropy_eq_negMulLog hmem]
  simp only [List.map_cons, List.map_nil, List.sum_cons, List.sum_nil, add_zero]
  ring

set_option maxHeartbeats 1000000 in
attribute [local irreducible] likelihood in
/-- Non-negativity of the information gain, for a valid distribution and a
catalog symptom: the expected posterior entropy never exceeds the current
entropy, by concavity of `x ↦ -x * log x`. -/
lemma information_gain_nonneg {P : List ℝ} (hlen : P.length = NUM_DIAGNOSES)
    (hpos : ∀ x ∈ P, 0 ≤ x) (hsum : P.sum = 1) {s : String} (hs : s ∈ symptomKeys) :
    0 ≤ calculate_information_gain P s := by
  obtain ⟨p0, p1, p2, p3, p4, p5, p6, p7, rfl⟩ := length_eq_eight hlen
  have hp0 : (0:ℝ) ≤ p0 := hpos p0 (by simp)
  have hp1 : (0:ℝ) ≤ p1 := hpos p1 (by simp)
  have hp2 : (0:ℝ) ≤ p2 := hpos p2 (by simp)
  have hp3 : (0:ℝ) ≤ p3 := hpos p3 (by simp)
  have hp4 : (0:ℝ) ≤ p4 := hpos p4 (by simp)
  have hp5 : (0:ℝ) ≤ p5 := hpos p5 (by simp)
  have hp6 : (0:ℝ) ≤ p6 := hpos p6 (by simp)
  have hp7 : (0:ℝ) ≤ p7 := hpos p7 (by simp)
  have hly0 := likelihood_Icc_name hs (show "Migraine" ∈ DIAGNOSES by simp [DIAGNOSES]) true
  have hln0 := likelihood_Icc_name hs (show "Migraine" ∈ DIAGNOSES by simp [DIAGNOSES]) false
  have hly1 := likelihood_Icc_name hs (show "Tension-Type" ∈ DIAGNOSES by simp [DIAGNOSES]) true
  have hln1 := likelihood_Icc_name hs (show "Tension-Type" ∈ DIAGNOSES by simp [DIAGNOSES]) false
  have hly2 := likelihood_Icc_name hs (show "Cluster" ∈ DIAGNOSES by simp [DIAGNOSES]) true
  have hln2 := likelihood_Icc_name hs (show "Cluster" ∈ DIAGNOSES by simp [DIAGNOSES]) false
  have hly3 := likelihood_Icc_name hs (show "Sinus" ∈ DIAGNOSES by simp [DIAGNOSES]) true
  have hln3 := likelihood_Icc_name hs (show "Sinus" ∈ DIAGNOSES by simp [DIAGNOSES]) false
  have hly4 := likelihood_Icc_name hs (show "Medication Overuse" ∈ DIAGNOSES by simp [DIAGNOSES]) true
  have hln4 := likelihood_Icc_name hs (show "Medication Overuse" ∈ DIAGNOSES by simp [DIAGNOSES]) false
  have hly5 := likelihood_Icc_name hs (show "Cervicogenic" ∈ DIAGNOSES by simp [DIAGNOSES]) true
  have hln5 := likelihood_Icc_name hs (show "Cervicogenic" ∈ DIAGNOSES by simp [DIAGNOSES]) false
  have hly6 := likelihood_Icc_name hs (show "Trigeminal Neuralgia" ∈ DIAGNOSES by simp [DIAGNOSES]) true
  have hln6 := likelihood_Icc_name hs (show "Trigeminal Neuralgia" ∈ DIAGNOSES by simp [DIAGNOSES]) false
  have hly7 := likelihood_Icc_name hs (show "Hypertensive" ∈ DIAGNOSES by simp [DIAGNOSES]) true
  have hln7 := likelihood_Icc_name hs (show "Hypertensive" ∈ DIAGNOSES by simp [DIAGNOSES]) false
  have hu0 : (0:ℝ) ≤ likelihood s true "Migraine" * p0 := mul_nonneg hly0.1 hp0
  have hv0 : (0:ℝ) ≤ likelihood s false "Migraine" * p0 := mul_nonneg hln0.1 hp0
  have hu1 : (0:ℝ) ≤ likelihood s true "Tension-Type" * p1 := mul_nonneg hly1.1 hp1
  have hv1 : (0:ℝ) ≤ likelihood s false "Tension-Type" * p1 := mul_nonneg hln1.1 hp1
  have hu2 : (0:ℝ) ≤ likelihood s true "Cluster" * p2 := mul_nonneg hly2.1 hp2
  have hv2 : (0:ℝ) ≤ likelihood s false "Cluster" * p2 := mul_nonneg hln2.1 hp2
  have hu3 : (0:ℝ) ≤ likelihood s true "Sinus" * p3 := mul_nonneg hly3.1 hp3
  have hv3 : (0:ℝ) ≤ likelihood s false "Sinus" * p3 := mul_nonneg hln3.1 hp3
  have hu4 : (0:ℝ) ≤ likelihood s true "Medication Overuse" * p4 := mul_nonneg hly4.1 hp4
  have hv4 : (0:ℝ) ≤ likelihood s false "Medication Overuse" * p4 := mul_nonneg hln4.1 hp4
  have hu5 : (0:ℝ) ≤ likelihood s true "Cervicogenic" * p5 := mul_nonneg hly5.1 hp5
  have hv5 : (0:ℝ) ≤ likelihood s false "Cervicogenic" * p5 := mul_nonneg hln5.1 hp5
  have hu6 : (0:ℝ) ≤ likelihood s true "Trigeminal Neuralgia" * p6 := mul_nonneg hly6.1 hp6
  have hv6 : (0:ℝ) ≤ likelihood s false "Trigeminal Neuralgia" * p6 := mul_nonneg hln6.1 hp6
  have hu7 : (0:ℝ) ≤ likelihood s true "Hypertensive" * p7 := mul_nonneg hly7.1 hp7
  have hv7 : (0:ℝ) ≤ likelihood s false "Hypertensive" * p7 := mul_nonneg hln7.1 hp7
  have hm0 : likelihood s true "Migraine" * p0 + likelihood s false "Migraine" * p0 = p0 := by
    rw [← add_mul, likelihood_add, one_mul]
  have hm1 : likelihood s true "Tension-Type" * p1 + likelihood s false "Tension-Type" * p1 = p1 := by
    rw [← add_mul, likelihood_add, one_mul]
  have hm2 : likelihood s true "Cluster" * p2 + likelihood s false "Cluster" * p2 = p2 := by
    rw [← add_mul, likelihood_add, one_mul]
  have hm3 : likelihood s true "Sinus" * p3 + likelihood s false "Sinus" * p3 = p3 := by
    rw [← add_mul, likelihood_add, one_mul]
  have hm4 : likelihood s true "Medication Overuse" * p4 + likelihood s false "Medication Overuse" * p4 = p4 := by
    rw [← add_mul, likelihood_add, one_mul]
  have hm5 : likelihood s true "Cervicogenic" * p5 + likelihood s false "Cervicogenic" * p5 = p5 := by
    rw [← add_mul, likelihood_add, one_mul]
  have hm6 : likelihood s true "Trigeminal Neuralgia" * p6 + likelihood s false "Trigeminal Neuralgia" * p6 = p6 := by
    rw [← add_mul, likelihood_add, one_mul]
  have hm7 : likelihood s true "Hypertensive" * p7 + likelihood s false "Hypertensive" * p7 = p7 := by
    rw [← add_mul, likelihood_add, one_mul]
  have hTsum : (new_P [p0, p1, p2, p3, p4, p5, p6, p7] s true).sum = likelihood s true "Migraine" * p0 + likelihood s true "Tension-Type" * p1 + likelihood s true "Cluster" * p2 + likelihood s true "Sinus" * p3 + likelihood s true "Medication Overuse" * p4 + likelihood s true "Cervicogenic" * p5 + likelihood s true "Trigeminal Neuralgia" * p6 + likelihood s true "Hypertensive" * p7 := by
    rw [new_P_eight]
    simp only [List.sum_cons, List.sum_nil, add_zero]
    ring
  have hFsum : (new_P [p0, p1, p2, p3, p4, p5, p6, p7] s false).sum = likelihood s false "Migraine" * p0 + likelihood s false "Tension-Type" * p1 + likelihood s false "Cluster" * p2 + likelihood s false "Sinus" * p3 + likelihood s false "Medication Overuse" * p4 + likelihood s false "Cervicogenic" * p5 + likelihood s false "Trigeminal Neuralgia" * p6 + likelihood s false "Hypertensive" * p7 := by
    rw [new_P_eight]
    simp only [List.sum_cons, List.sum_nil, add_zero]
    ring
  have hPy : P_yes [p0, p1, p2, p3, p4, p5, p6, p7] s = (new_P [p0, p1, p2, p3, p4, p5, p6, p7] s true).sum := P_yes_eq_new_P_sum [p0, p1, p2, p3, p4, p5, p6, p7] s
  have hF : (new_P [p0, p1, p2, p3, p4, p5, p6, p7] s false).sum = 1 - P_yes [p0, p1, p2, p3, p4, p5, p6, p7] s := by
    rw [new_P_false_sum hlen, hsum]
  have hT0 : (0:ℝ) ≤ (new_P [p0, p1, p2, p3, p4, p5, p6, p7] s true).sum := by
    rw [hTsum]; linarith
  have hF0 : (0:ℝ) ≤ (new_P [p0, p1, p2, p3, p4, p5, p6, p7] s false).sum := by
    rw [hFsum]; linarith
  have hT1 : (new_P [p0, p1, p2, p3, p4, p5, p6, p7] s true).sum ≤ 1 := by linarith [hF, hPy]
  have hIG : calculate_information_gain [p0, p1, p2, p3, p4, p5, p6, p7] s =
      calculate_entropy [p0, p1, p2, p3, p4, p5, p6, p7]
        - (P_yes [p0, p1, p2, p3, p4, p5, p6, p7] s * calculate_entropy (bayesian_update [p0, p1, p2, p3, p4, p5, p6, p7] s true)
          + (1 - P_yes [p0, p1, p2, p3, p4, p5, p6, p7] s) * calculate_entropy (bayesian_update [p0, p1, p2, p3, p4, p5, p6, p7] s false)) := rfl
  by_cases hy : (new_P [p0, p1, p2, p3, p4, p5, p6, p7] s true).sum = 0
  · have hFF1 : (new_P [p0, p1, p2, p3, p4, p5, p6, p7] s false).sum = 1 := by linarith [hF, hPy]
    have hFne : (new_P [p0, p1, p2, p3, p4, p5, p6, p7] s false).sum ≠ 0 := by rw [hFF1]; norm_num
    have hU0 : likelihood s true "Migraine" * p0 = 0 := by
      rw [hTsum] at hy
      linarith
    have hU1 : likelihood s true "Tension-Type" * p1 = 0 := by
      rw [hTsum] at hy
      linarith
    have hU2 : likelihood s true "Cluster" * p2 = 0 := by
      rw [hTsum] at hy
      linarith
    have hU3 : likelihood s true "Sinus" * p3 = 0 := by
      rw [hTsum] at hy
      linarith
    have hU4 : likelihood s true "Medication Overuse" * p4 = 0 := by
      rw [hTsum] at hy
      linarith
    have hU5 : likelihood s true "Cervicogenic" * p5 = 0 := by
      rw [hTsum] at hy
      linarith
    have hU6 : likelihood s true "Trigeminal Neuralgia" * p6 = 0 := by
      rw [hTsum] at hy
      linarith
    have hU7 : likelihood s true "Hypertensive" * p7 = 0 := by
      rw [hTsum] at hy
      linarith
    have hV0 : likelihood s false "Migraine" * p0 = p0 := by
      have h := hm0
      rw [hU0, zero_add] at h
      exact h
    have hV1 : likelihood s false "Tension-Type" * p1 = p1 := by
      have h := hm1
      rw [hU1, zero_add] at h
      exact h
    have hV2 : likelihood s false "Cluster" * p2 = p2 := by
      have h := hm2
      rw [hU2, zero_add] at h
      exact h
    have hV3 : likelihood s false "Sinus" * p3 = p3 := by
      have h := hm3
      rw [hU3, zero_add] at h
      exact h
    have hV4 : likelihood s false "Medication Overuse" * p4 = p4 := by
      have h := hm4
      rw [hU4, zero_add] at h
      exact h
    have hV5 : likelihood s false "Cervicogenic" * p5 = p5 := by
      have h := hm5
      rw [hU5, zero_add] at h
      exact h
    have hV6 : likelihood s false "Trigeminal Neuralgia" * p6 = p6 := by
      have h := hm6
      rw [hU6, zero_add] at h
      exact h
    have hV7 : likelihood s false "Hypertensive" * p7 = p7 := by
      have h := hm7
      rw [hU7, zero_add] at h
      exact h
    have hN : bayesian_update [p0, p1, p2, p3, p4, p5, p6, p7] s false = [p0, p1, p2, p3, p4, p5, p6, p7] := by
      rw [bayesian_update_of_sum_ne_zero hFne, hFF1, new_P_eight]
      simp only [List.map_cons, List.map_nil, div_one]
      rw [hV0, hV1, hV2, hV3, hV4, hV5, hV6, hV7]
    rw [hIG, hN, hPy, hy]
    linarith
  · by_cases hn : (new_P [p0, p1, p2, p3, p4, p5, p6, p7] s false).sum = 0
    · have hTT1 : (new_P [p0, p1, p2, p3, p4, p5, p6, p7] s true).sum = 1 := by linarith [hF, hPy]
      have hV0 : likelihood s false "Migraine" * p0 = 0 := by
        rw [hFsum] at hn
        linarith
      have hV1 : likelihood s false "Tension-Type" * p1 = 0 := by
        rw [hFsum] at hn
        linarith
      have hV2 : likelihood s false "Cluster" * p2 = 0 := by
        rw [hFsum] at hn
        linarith
      have hV3 : likelihood s false "Sinus" * p3 = 0 := by
        rw [hFsum] at hn
        linarith
      have hV4 : likelihood s false "Medication Overuse" * p4 = 0 := by
        rw [hFsum] at hn
        linarith
      have hV5 : likelihood s false "Cervicogenic" * p5 = 0 := by
        rw [hFsum] at hn
        linarith
      have hV6 : likelihood s false "Trigeminal Neuralgia" * p6 = 0 := by
        rw [hFsum] at hn
        linarith
      have hV7 : likelihood s false "Hypertensive" * p7 = 0 := by
        rw [hFsum] at hn
        linarith
      have hU0 : likelihood s true "Migraine" * p0 = p0 := by
        have h := hm0
        rw [hV0, add_zero] at h
        exact h
      have hU1 : likelihood s true "Tension-Type" * p1 = p1 := by
        have h := hm1
        rw [hV1, add_zero] at h
        exact h
      have hU2 : likelihood s true "Cluster" * p2 = p2 := by
        have h := hm2
        rw [hV2, add_zero] at h
        exact h
      have hU3 : likelihood s true "Sinus" * p3 = p3 := by
        have h := hm3
        rw [hV3, add_zero] at h
        exact h
      have hU4 : likelihood s true "Medication Overuse" * p4 = p4 := by
        have h := hm4
        rw [hV4, add_zero] at h
        exact h
      have hU5 : likelihood s true "Cervicogenic" * p5 = p5 := by
        have h := hm5
        rw [hV5, add_zero] at h
        exact h
      have hU6 : likelihood s true "Trigeminal Neuralgia" * p6 = p6 := by
        have h := hm6
        rw [hV6, add_zero] at h
        exact h
      have hU7 : likelihood s true "Hypertensive" * p7 = p7 := by
        have h := hm7
        rw [hV7, add_zero] at h
        exact h
      have hY : bayesian_update [p0, p1, p2, p3, p4, p5, p6, p7] s true = [p0, p1, p2, p3, p4, p5, p6, p7] := by
        rw [bayesian_update_of_sum_ne_zero hy, hTT1, new_P_eight]
        simp only [List.map_cons, List.map_nil, div_one]
        rw [hU0, hU1, hU2, hU3, hU4, hU5, hU6, hU7]
      rw [hIG, hY, hPy, hTT1]
      linarith
    · have hTpos : (0:ℝ) < (new_P [p0, p1, p2, p3, p4, p5, p6, p7] s true).sum := lt_of_le_of_ne hT0 (Ne.symm hy)
      have hFpos : (0:ℝ) < (new_P [p0, p1, p2, p3, p4, p5, p6, p7] s false).sum := lt_of_le_of_ne hF0 (Ne.symm hn)
      have hF2 : (new_P [p0, p1, p2, p3, p4, p5, p6, p7] s false).sum = 1 - (new_P [p0, p1, p2, p3, p4, p5, p6, p7] s true).sum := by rw [hF, hPy]
      have hY : bayesian_update [p0, p1, p2, p3, p4, p5, p6, p7] s true =
          [likelihood s true "Migraine" * p0 / (new_P [p0, p1, p2, p3, p4, p5, p6, p7] s true).sum,
           likelihood s true "Tension-Type" * p1 / (new_P [p0, p1, p2, p3, p4, p5, p6, p7] s true).sum,
           likelihood s true "Cluster" * p2 / (new_P [p0, p1, p2, p3, p4, p5, p6, p7] s true).sum,
           likelihood s true "Sinus" * p3 / (new_P [p0, p1, p2, p3, p4, p5, p6, p7] s true).sum,
           likelihood s true "Medication Overuse" * p4 / (new_P [p0, p1, p2, p3, p4, p5, p6, p7] s true).sum,
           likelihood s true "Cervicogenic" * p5 / (new_P [p0, p1, p2, p3, p4, p5, p6, p7] s true).sum,
           likelihood s true "Trigeminal Neuralgia" * p6 / (new_P [p0, p1, p2, p3, p4, p5, p6, p7] s true).sum,
           likelihood s true "Hypertensive" * p7 / (new_P [p0, p1, p2, p3, p4, p5, p6, p7] s true).sum] := by
        rw [bayesian_update_of_sum_ne_zero hy]
        generalize (new_P [p0, p1, p2, p3, p4, p5, p6, p7] s true).sum = d
        rw [new_P_eight]
        simp only [List.map_cons, List.map_nil]
      have hN : bayesian_update [p0, p1, p2, p3, p4, p5, p6, p7] s false =
          [likelihood s false "Migraine" * p0 / (new_P [p0, p1, p2, p3, p4, p5, p6, p7] s false).sum,
           likelihood s false "Tension-Type" * p1 / (new_P [p0, p1, p2, p3, p4, p5, p6, p7] s false).sum,
           likelihood s false "Cluster" * p2 / (new_P [p0, p1, p2, p3, p4, p5, p6, p7] s false).sum,
           likelihood s false "Sinus" * p3 / (new_P [p0, p1, p2, p3, p4, p5, p6, p7] s false).sum,
           likelihood s false "Medication Overuse" * p4 / (new_P [p0, p1, p2, p3, p4, p5, p6, p7] s false).sum,
           likelihood s false "Cervicogenic" * p5 / (new_P [p0, p1, p2, p3, p4, p5, p6, p7] s false).sum,
           likelihood s false "Trigeminal Neuralgia" * p6 / (new_P [p0, p1, p2, p3, p4, p5, p6, p7] s false).sum,
           likelihood s false "Hypertensive" * p7 / (new_P [p0, p1, p2, p3, p4, p5, p6, p7] s false).sum] := by
        rw [bayesian_update_of_sum_ne_zero hn]
        generalize (new_P [p0, p1, p2, p3, p4, p5, p6, p7] s false).sum = d
        rw [new_P_eight]
        simp only [List.map_cons, List.map_nil]
      have hHP : calculate_entropy [p0, p1, p2, p3, p4, p5, p6, p7] =
          (Real.negMulLog p0 + Real.negMulLog p1 + Real.negMulLog p2 + Real.negMulLog p3 + Real.negMulLog p4 + Real.negMulLog p5 + Real.negMulLog p6 + Real.negMulLog p7) / Real.log 2 :=
        entropy_negMulLog_eight p0 p1 p2 p3 p4 p5 p6 p7 hp0 hp1 hp2 hp3 hp4 hp5 hp6 hp7
      have hHY : calculate_entropy [likelihood s true "Migraine" * p0 / (new_P [p0, p1, p2, p3, p4, p5, p6, p7] s true).sum, likelihood s true "Tension-Type" * p1 / (new_P [p0, p1, p2, p3, p4, p5, p6, p7] s true).sum, likelihood s true "Cluster" * p2 / (new_P [p0, p1, p2, p3, p4, p5, p6, p7] s true).sum, likelihood s true "Sinus" * p3 / (new_P [p0, p1, p2, p3, p4, p5, p6, p7] s true).sum, likelihood s true "Medication Overuse" * p4 / (new_P [p0, p1, p2, p3, p4, p5, p6, p7] s true).sum, likelihood s true "Cervicogenic" * p5 / (new_P [p0, p1, p2, p3, p4, p5, p6, p7] s true).sum, likelihood s true "Trigeminal Neuralgia" * p6 / (new_P [p0, p1, p2, p3, p4, p5, p6, p7] s true).sum, likelihood s true "Hypertensive" * p7 / (new_P [p0, p1, p2, p3, p4, p5, p6, p7] s true).sum] =
          (Real.negMulLog (likelihood s true "Migraine" * p0 / (new_P [p0, p1, p2, p3, p4, p5, p6, p7] s true).sum) + Real.negMulLog (likelihood s true "Tension-Type" * p1 / (new_P [p0, p1, p2, p3, p4, p5, p6, p7] s true).sum) + Real.negMulLog (likelihood s true "Cluster" * p2 / (new_P [p0, p1, p2, p3, p4, p5, p6, p7] s true).sum) + Real.negMulLog (likelihood s true "Sinus" * p3 / (new_P [p0, p1, p2, p3, p4, p5, p6, p7] s true).sum) + Real.negMulLog (likelihood s true "Medication Overuse" * p4 / (new_P [p0, p1, p2, p3, p4, p5, p6, p7] s true).sum) + Real.negMulLog (likelihood s true "Cervicogenic" * p5 / (new_P [p0, p1, p2, p3, p4, p5, p6, p7] s true).sum) + Real.negMulLog (likelihood s true "Trigeminal Neuralgia" * p6 / (new_P [p0, p1, p2, p3, p4, p5, p6, p7] s true).sum) + Real.negMulLog (likelihood s true "Hypertensive" * p7 / (new_P [p0, p1, p2, p3, p4, p5, p6, p7] s true).sum)) / Real.log 2 :=
        entropy_negMulLog_eight _ _ _ _ _ _ _ _ (div_nonneg hu0 hT0) (div_nonneg hu1 hT0) (div_nonneg hu2 hT0) (div_nonneg hu3 hT0) (div_nonneg hu4 hT0) (div_nonneg hu5 hT0) (div_nonneg hu6 hT0) (div_nonneg hu7 hT0)
      have hHN : calculate_entropy [likelihood s false "Migraine" * p0 / (new_P [p0, p1, p2, p3, p4, p5, p6, p7] s false).sum, likelihood s false "Tension-Type" * p1 / (new_P [p0, p1, p2, p3, p4, p5, p6, p7] s false).sum, likelihood s false "Cluster" * p2 / (new_P [p0, p1, p2, p3, p4, p5, p6, p7] s false).sum, likelihood s false "Sinus" * p3 / (new_P [p0, p1, p2, p3, p4, p5, p6, p7] s false).sum, likelihood s false "Medication Overuse" * p4 / (new_P [p0, p1, p2, p3, p4, p5, p6, p7] s false).sum, likelihood s false "Cervicogenic" * p5 / (new_P [p0, p1, p2, p3, p4, p5, p6, p7] s false).sum, likelihood s false "Trigeminal Neuralgia" * p6 / (new_P [p0, p1, p2, p3, p4, p5, p6, p7] s false).sum, likelihood s false "Hypertensive" * p7 / (new_P [p0, p1, p2, p3, p4, p5, p6, p7] s false).sum] =
          (Real.negMulLog (likelihood s false "Migraine" * p0 / (new_P [p0, p1, p2, p3, p4, p5, p6, p7] s false).sum) + Real.negMulLog (likelihood s false "Tension-Type" * p1 / (new_P [p0, p1, p2, p3, p4, p5, p6, p7] s false).sum) + Real.negMulLog (likelihood s false "Cluster" * p2 / (new_P [p0, p1, p2, p3, p4, p5, p6, p7] s false).sum) + Real.negMulLog (likelihood s false "Sinus" * p3 / (new_P [p0, p1, p2, p3, p4, p5, p6, p7] s false).sum) + Real.negMulLog (likelihood s false "Medication Overuse" * p4 / (new_P [p0, p1, p2, p3, p4, p5, p6, p7] s false).sum) + Real.negMulLog (likelihood s false "Cervicogenic" * p5 / (new_P [p0, p1, p2, p3, p4, p5, p6, p7] s false).sum) + Real.negMulLog (likelihood s false "Trigeminal Neuralgia" * p6 / (new_P [p0, p1, p2, p3, p4, p5, p6, p7] s false).sum) + Real.negMulLog (likelihood s false "Hypertensive" * p7 / (new_P [p0, p1, p2, p3, p4, p5, p6, p7] s false).sum)) / Real.log 2 :=
        entropy_negMulLog_eight _ _ _ _ _ _ _ _ (div_nonneg hv0 hF0) (div_nonneg hv1 hF0) (div_nonneg hv2 hF0) (div_nonneg hv3 hF0) (div_nonneg hv4 hF0) (div_nonneg hv5 hF0) (div_nonneg hv6 hF0) (div_nonneg hv7 hF0)
      have he1x0 : (new_P [p0, p1, p2, p3, p4, p5, p6, p7] s true).sum * (likelihood s true "Migraine" * p0 / (new_P [p0, p1, p2, p3, p4, p5, p6, p7] s true).sum) = likelihood s true "Migraine" * p0 := by
        rw [mul_comm, div_mul_cancel₀ _ hy]
      have he2x0 : (1 - (new_P [p0, p1, p2, p3, p4, p5, p6, p7] s true).sum) * (likelihood s false "Migraine" * p0 / (new_P [p0, p1, p2, p3, p4, p5, p6, p7] s false).sum) = likelihood s false "Migraine" * p0 := by
        rw [← hF2, mul_comm, div_mul_cancel₀ _ hn]
      have harg0 : (new_P [p0, p1, p2, p3, p4, p5, p6, p7] s true).sum * (likelihood s true "Migraine" * p0 / (new_P [p0, p1, p2, p3, p4, p5, p6, p7] s true).sum) + (1 - (new_P [p0, p1, p2, p3, p4, p5, p6, p7] s true).sum) * (likelihood s false "Migraine" * p0 / (new_P [p0, p1, p2, p3, p4, p5, p6, p7] s false).sum) = p0 := by
        rw [he1x0, he2x0]; exact hm0
      have hmx0 : (new_P [p0, p1, p2, p3, p4, p5, p6, p7] s true).sum * Real.negMulLog (likelihood s true "Migraine" * p0 / (new_P [p0, p1, p2, p3, p4, p5, p6, p7] s true).sum) + (1 - (new_P [p0, p1, p2, p3, p4, p5, p6, p7] s true).sum) * Real.negMulLog (likelihood s false "Migraine" * p0 / (new_P [p0, p1, p2, p3, p4, p5, p6, p7] s false).sum)
          ≤ Real.negMulLog p0 := by
        have h := negMulLog_mix hT0 hT1 (div_nonneg hu0 hT0) (div_nonneg hv0 hF0)
        rw [harg0] at h
        exact h
      have he1x1 : (new_P [p0, p1, p2, p3, p4, p5, p6, p7] s true).sum * (likelihood s true "Tension-Type" * p1 / (new_P [p0, p1, p2, p3, p4, p5, p6, p7] s true).sum) = likelihood s true "Tension-Type" * p1 := by
        rw [mul_comm, div_mul_cancel₀ _ hy]
      have he2x1 : (1 - (new_P [p0, p1, p2, p3, p4, p5, p6, p7] s true).sum) * (likelihood s false "Tension-Type" * p1 / (new_P [p0, p1, p2, p3, p4, p5, p6, p7] s false).sum) = likelihood s false "Tension-Type" * p1 := by
        rw [← hF2, mul_comm, div_mul_cancel₀ _ hn]
      have harg1 : (new_P [p0, p1, p2, p3, p4, p5, p6, p7] s true).sum * (likelihood s true "Tension-Type" * p1 / (new_P [p0, p1, p2, p3, p4, p5, p6, p7] s true).sum) + (1 - (new_P [p0, p1, p2, p3, p4, p5, p6, p7] s true).sum) * (likelihood s false "Tension-Type" * p1 / (new_P [p0, p1, p2, p3, p4, p5, p6, p7] s false).sum) = p1 := by
        rw [he1x1, he2x1]; exact hm1
      have hmx1 : (new_P [p0, p1, p2, p3, p4, p5, p6, p7] s true).sum * Real.negMulLog (likelihood s true "Tension-Type" * p1 / (new_P [p0, p1, p2, p3, p4, p5, p6, p7] s true).sum) + (1 - (new_P [p0, p1, p2, p3, p4, p5, p6, p7] s true).sum) * Real.negMulLog (likelihood s false "Tension-Type" * p1 / (new_P [p0, p1, p2, p3, p4, p5, p6, p7] s false).sum)
          ≤ Real.negMulLog p1 := by
        have h := negMulLog_mix hT0 hT1 (div_nonneg hu1 hT0) (div_nonneg hv1 hF0)
        rw [harg1] at h
        exact h
      have he1x2 : (new_P [p0, p1, p2, p3, p4, p5, p6, p7] s true).sum * (likelihood s true "Cluster" * p2 / (new_P [p0, p1, p2, p3, p4, p5, p6, p7] s true).sum) = likelihood s true "Cluster" * p2 := by
        rw [mul_comm, div_mul_cancel₀ _ hy]
      have he2x2 : (1 - (new_P [p0, p1, p2, p3, p4, p5, p6, p7] s true).sum) * (likelihood s false "Cluster" * p2 / (new_P [p0, p1, p2, p3, p4, p5, p6, p7] s false).sum) = likelihood s false "Cluster" * p2 := by
        rw [← hF2, mul_comm, div_mul_cancel₀ _ hn]
      have harg2 : (new_P [p0, p1, p2, p3, p4, p5, p6, p7] s true).sum * (likelihood s true "Cluster" * p2 / (new_P [p0, p1, p2, p3, p4, p5, p6, p7] s true).sum) + (1 - (new_P [p0, p1, p2, p3, p4, p5, p6, p7] s true).sum) * (likelihood s false "Cluster" * p2 / (new_P [p0, p1, p2, p3, p4, p5, p6, p7] s false).sum) = p2 := by
        rw [he1x2, he2x2]; exact hm2
      have hmx2 : (new_P [p0, p1, p2, p3, p4, p5, p6, p7] s true).sum * Real.negMulLog (likelihood s true "Cluster" * p2 / (new_P [p0, p1, p2, p3, p4, p5, p6, p7] s true).sum) + (1 - (new_P [p0, p1, p2, p3, p4, p5, p6, p7] s true).sum) * Real.negMulLog (likelihood s false "Cluster" * p2 / (new_P [p0, p1, p2, p3, p4, p5, p6, p7] s false).sum)
          ≤ Real.negMulLog p2 := by
        have h := negMulLog_mix hT0 hT1 (div_nonneg hu2 hT0) (div_nonneg hv2 hF0)
        rw [harg2] at h
        exact h
      have he1x3 : (new_P [p0, p1, p2, p3, p4, p5, p6, p7] s true).sum * (likelihood s true "Sinus" * p3 / (new_P [p0, p1, p2, p3, p4, p5, p6, p7] s true).sum) = likelihood s true "Sinus" * p3 := by
        rw [mul_comm, div_mul_cancel₀ _ hy]
      have he2x3 : (1 - (new_P [p0, p1, p2, p3, p4, p5, p6, p7] s true).sum) * (likelihood s false "Sinus" * p3 / (new_P [p0, p1, p2, p3, p4, p5, p6, p7] s false).sum) = likelihood s false "Sinus" * p3 := by
        rw [← hF2, mul_comm, div_mul_cancel₀ _ hn]
      have harg3 : (new_P [p0, p1, p2, p3, p4, p5, p6, p7] s true).sum * (likelihood s true "Sinus" * p3 / (new_P [p0, p1, p2, p3, p4, p5, p6, p7] s true).sum) + (1 - (new_P [p0, p1, p2, p3, p4, p5, p6, p7] s true).sum) * (likelihood s false "Sinus" * p3 / (new_P [p0, p1, p2, p3, p4, p5, p6, p7] s false).sum) = p3 := by
        rw [he1x3, he2x3]; exact hm3
      have hmx3 : (new_P [p0, p1, p2, p3, p4, p5, p6, p7] s true).sum * Real.negMulLog (likelihood s true "Sinus" * p3 / (new_P [p0, p1, p2, p3, p4, p5, p6, p7] s true).sum) + (1 - (new_P [p0, p1, p2, p3, p4, p5, p6, p7] s true).sum) * Real.negMulLog (likelihood s false "Sinus" * p3 / (new_P [p0, p1, p2, p3, p4, p5, p6, p7] s false).sum)
          ≤ Real.negMulLog p3 := by
        have h := negMulLog_mix hT0 hT1 (div_nonneg hu3 hT0) (div_nonneg hv3 hF0)
        rw [harg3] at h
        exact h
      have he1x4 : (new_P [p0, p1, p2, p3, p4, p5, p6, p7] s true).sum * (likelihood s true "Medication Overuse" * p4 / (new_P [p0, p1, p2, p3, p4, p5, p6, p7] s true).sum) = likelihood s true "Medication Overuse" * p4 := by
        rw [mul_comm, div_mul_cancel₀ _ hy]
      have he2x4 : (1 - (new_P [p0, p1, p2, p3, p4, p5, p6, p7] s true).sum) * (likelihood s false "Medication Overuse" * p4 / (new_P [p0, p1, p2, p3, p4, p5, p6, p7] s false).sum) = likelihood s false "Medication Overuse" * p4 := by
        rw [← hF2, mul_comm, div_mul_cancel₀ _ hn]
      have harg4 : (new_P [p0, p1, p2, p3, p4, p5, p6, p7] s true).sum * (likelihood s true "Medication Overuse" * p4 / (new_P [p0, p1, p2, p3, p4, p5, p6, p7] s true).sum) + (1 - (new_P [p0, p1, p2, p3, p4, p5, p6, p7] s true).sum) * (likelihood s false "Medication Overuse" * p4 / (new_P [p0, p1, p2, p3, p4, p5, p6, p7] s false).sum) = p4 := by
        rw [he1x4, he2x4]; exact hm4
      have hmx4 : (new_P [p0, p1, p2, p3, p4, p5, p6, p7] s true).sum * Real.negMulLog (likelihood s true "Medication Overuse" * p4 / (new_P [p0, p1, p2, p3, p4, p5, p6, p7] s true).sum) + (1 - (new_P [p0, p1, p2, p3, p4, p5, p6, p7] s true).sum) * Real.negMulLog (likelihood s false "Medication Overuse" * p4 / (new_P [p0, p1, p2, p3, p4, p5, p6, p7] s false).sum)
          ≤ Real.negMulLog p4 := by
        have h := negMulLog_mix hT0 hT1 (div_nonneg hu4 hT0) (div_nonneg hv4 hF0)
        rw [harg4] at h
        exact h
      have he1x5 : (new_P [p0, p1, p2, p3, p4, p5, p6, p7] s true).sum * (likelihood s true "Cervicogenic" * p5 / (new_P [p0, p1, p2, p3, p4, p5, p6, p7] s true).sum) = likelihood s true "Cervicogenic" * p5 := by
        rw [mul_comm, div_mul_cancel₀ _ hy]
      have he2x5 : (1 - (new_P [p0, p1, p2, p3, p4, p5, p6, p7] s true).sum) * (likelihood s false "Cervicogenic" * p5 / (new_P [p0, p1, p2, p3, p4, p5, p6, p7] s false).sum) = likelihood s false "Cervicogenic" * p5 := by
        rw [← hF2, mul_comm, div_mul_cancel₀ _ hn]
      have harg5 : (new_P [p0, p1, p2, p3, p4, p5, p6, p7] s true).sum * (likelihood s true "Cervicogenic" * p5 / (new_P [p0, p1, p2, p3, p4, p5, p6, p7] s true).sum) + (1 - (new_P [p0, p1, p2, p3, p4, p5, p6, p7] s true).sum) * (likelihood s false "Cervicogenic" * p5 / (new_P [p0, p1, p2, p3, p4, p5, p6, p7] s false).sum) = p5 := by
        rw [he1x5, he2x5]; exact hm5
      have hmx5 : (new_P [p0, p1, p2, p3, p4, p5, p6, p7] s true).sum * Real.negMulLog (likelihood s true "Cervicogenic" * p5 / (new_P [p0, p1, p2, p3, p4, p5, p6, p7] s true).sum) + (1 - (new_P [p0, p1, p2, p3, p4, p5, p6, p7] s true).sum) * Real.negMulLog (likelihood s false "Cervicogenic" * p5 / (new_P [p0, p1, p2, p3, p4, p5, p6, p7] s false).sum)
          ≤ Real.negMulLog p5 := by
        have h := negMulLog_mix hT0 hT1 (div_nonneg hu5 hT0) (div_nonneg hv5 hF0)
        rw [harg5] at h
        exact h
      have he1x6 : (new_P [p0, p1, p2, p3, p4, p5, p6, p7] s true).sum * (likelihood s true "Trigeminal Neuralgia" * p6 / (new_P [p0, p1, p2, p3, p4, p5, p6, p7] s true).sum) = likelihood s true "Trigeminal Neuralgia" * p6 := by
        rw [mul_comm, div_mul_cancel₀ _ hy]
      have he2x6 : (1 - (new_P [p0, p1, p2, p3, p4, p5, p6, p7] s true).sum) * (likelihood s false "Trigeminal Neuralgia" * p6 / (new_P [p0, p1, p2, p3, p4, p5, p6, p7] s false).sum) = likelihood s false "Trigeminal Neuralgia" * p6 := by
        rw [← hF2, mul_comm, div_mul_cancel₀ _ hn]
      have harg6 : (new_P [p0, p1, p2, p3, p4, p5, p6, p7] s true).sum * (likelihood s true "Trigeminal Neuralgia" * p6 / (new_P [p0, p1, p2, p3, p4, p5, p6, p7] s true).sum) + (1 - (new_P [p0, p1, p2, p3, p4, p5, p6, p7] s true).sum) * (likelihood s false "Trigeminal Neuralgia" * p6 / (new_P [p0, p1, p2, p3, p4, p5, p6, p7] s false).sum) = p6 := by
        rw [he1x6, he2x6]; exact hm6
      have hmx6 : (new_P [p0, p1, p2, p3, p4, p5, p6, p7] s true).sum * Real.negMulLog (likelihood s true "Trigeminal Neuralgia" * p6 / (new_P [p0, p1, p2, p3, p4, p5, p6, p7] s true).sum) + (1 - (new_P [p0, p1, p2, p3, p4, p5, p6, p7] s true).sum) * Real.negMulLog (likelihood s false "Trigeminal Neuralgia" * p6 / (new_P [p0, p1, p2, p3, p4, p5, p6, p7] s false).sum)
          ≤ Real.negMulLog p6 := by
        have h := negMulLog_mix hT0 hT1 (div_nonneg hu6 hT0) (div_nonneg hv6 hF0)
        rw [harg6] at h
        exact h
      have he1x7 : (new_P [p0, p1, p2, p3, p4, p5, p6, p7] s true).sum * (likelihood s true "Hypertensive" * p7 / (new_P [p0, p1, p2, p3, p4, p5, p6, p7] s true).sum) = likelihood s true "Hypertensive" * p7 := by
        rw [mul_comm, div_mul_cancel₀ _ hy]
      have he2x7 : (1 - (new_P [p0, p1, p2, p3, p4, p5, p6, p7] s true).sum) * (likelihood s false "Hypertensive" * p7 / (new_P [p0, p1, p2, p3, p4, p5, p6, p7] s false).sum) = likelihood s false "Hypertensive" * p7 := by
        rw [← hF2, mul_comm, div_mul_cancel₀ _ hn]
      have harg7 : (new_P [p0, p1, p2, p3, p4, p5, p6, p7] s true).sum * (likelihood s true "Hypertensive" * p7 / (new_P [p0, p1, p2, p3, p4, p5, p6, p7] s true).sum) + (1 - (new_P [p0, p1, p2, p3, p4, p5, p6, p7] s true).sum) * (likelihood s false "Hypertensive" * p7 / (new_P [p0, p1, p2, p3, p4, p5, p6, p7] s false).sum) = p7 := by
        rw [he1x7, he2x7]; exact hm7
      have hmx7 : (new_P [p0, p1, p2, p3, p4, p5, p6, p7] s true).sum * Real.negMulLog (likelihood s true "Hypertensive" * p7 / (new_P [p0, p1, p2, p3, p4, p5, p6, p7] s true).sum) + (1 - (new_P [p0, p1, p2, p3, p4, p5, p6, p7] s true).sum) * Real.negMulLog (likelihood s false "Hypertensive" * p7 / (new_P [p0, p1, p2, p3, p4, p5, p6, p7] s false).sum)
          ≤ Real.negMulLog p7 := by
        have h := negMulLog_mix hT0 hT1 (div_nonneg hu7 hT0) (div_nonneg hv7 hF0)
        rw [harg7] at h
        exact h
      have hL : (0:ℝ) < Real.log 2 := Real.log_pos (by norm_num)
      have key : (new_P [p0, p1, p2, p3, p4, p5, p6, p7] s true).sum * (Real.negMulLog (likelihood s true "Migraine" * p0 / (new_P [p0, p1, p2, p3, p4, p5, p6, p7] s true).sum) + Real.negMulLog (likelihood s true "Tension-Type" * p1 / (new_P [p0, p1, p2, p3, p4, p5, p6, p7] s true).sum) + Real.negMulLog (likelihood s true "Cluster" * p2 / (new_P [p0, p1, p2, p3, p4, p5, p6, p7] s true).sum) + Real.negMulLog (likelihood s true "Sinus" * p3 / (new_P [p0, p1, p2, p3, p4, p5, p6, p7] s true).sum) + Real.negMulLog (likelihood s true "Medication Overuse" * p4 / (new_P [p0, p1, p2, p3, p4, p5, p6, p7] s true).sum) + Real.negMulLog (likelihood s true "Cervicogenic" * p5 / (new_P [p0, p1, p2, p3, p4, p5, p6, p7] s true).sum) + Real.negMulLog (likelihood s true "Trigeminal Neuralgia" * p6 / (new_P [p0, p1, p2, p3, p4, p5, p6, p7] s true).sum) + Real.negMulLog (likelihood s true "Hypertensive" * p7 / (new_P [p0, p1, p2, p3, p4, p5, p6, p7] s true).sum)) + (1 - (new_P [p0, p1, p2, p3, p4, p5, p6, p7] s true).sum) * (Real.negMulLog (likelihood s false "Migraine" * p0 / (new_P [p0, p1, p2, p3, p4, p5, p6, p7] s false).sum) + Real.negMulLog (likelihood s false "Tension-Type" * p1 / (new_P [p0, p1, p2, p3, p4, p5, p6, p7] s false).sum) + Real.negMulLog (likelihood s false "Cluster" * p2 / (new_P [p0, p1, p2, p3, p4, p5, p6, p7] s false).sum) + Real.negMulLog (likelihood s false "Sinus" * p3 / (new_P [p0, p1, p2, p3, p4, p5, p6, p7] s false).sum) + Real.negMulLog (likelihood s false "Medication Overuse" * p4 / (new_P [p0, p1, p2, p3, p4, p5, p6, p7] s false).sum) + Real.negMulLog (likelihood s false "Cervicogenic" * p5 / (new_P [p0, p1, p2, p3, p4, p5, p6, p7] s false).sum) + Real.negMulLog (likelihood s false "Trigeminal Neuralgia" * p6 / (new_P [p0, p1, p2, p3, p4, p5, p6, p7] s false).sum) + Real.negMulLog (likelihood s false "Hypertensive" * p7 / (new_P [p0, p1, p2, p3, p4, p5, p6, p7] s false).sum)) ≤ Real.negMulLog p0 + Real.negMulLog p1 + Real.negMulLog p2 + Real.negMulLog p3 + Real.negMulLog p4 + Real.negMulLog p5 + Real.negMulLog p6 + Real.negMulLog p7 := by
        linarith [hmx0, hmx1, hmx2, hmx3, hmx4, hmx5, hmx6, hmx7]
      have heq : (Real.negMulLog p0 + Real.negMulLog p1 + Real.negMulLog p2 + Real.negMulLog p3 + Real.negMulLog p4 + Real.negMulLog p5 + Real.negMulLog p6 + Real.negMulLog p7) / Real.log 2
          - ((new_P [p0, p1, p2, p3, p4, p5, p6, p7] s true).sum * ((Real.negMulLog (likelihood s true "Migraine" * p0 / (new_P [p0, p1, p2, p3, p4, p5, p6, p7] s true).sum) + Real.negMulLog (likelihood s true "Tension-Type" * p1 / (new_P [p0, p1, p2, p3, p4, p5, p6, p7] s true).sum) + Real.negMulLog (likelihood s true "Cluster" * p2 / (new_P [p0, p1, p2, p3, p4, p5, p6, p7] s true).sum) + Real.negMulLog (likelihood s true "Sinus" * p3 / (new_P [p0, p1, p2, p3, p4, p5, p6, p7] s true).sum) + Real.negMulLog (likelihood s true "Medication Overuse" * p4 / (new_P [p0, p1, p2, p3, p4, p5, p6, p7] s true).sum) + Real.negMulLog (likelihood s true "Cervicogenic" * p5 / (new_P [p0, p1, p2, p3, p4, p5, p6, p7] s true).sum) + Real.negMulLog (likelihood s true "Trigeminal Neuralgia" * p6 / (new_P [p0, p1, p2, p3, p4, p5, p6, p7] s true).sum) + Real.negMulLog (likelihood s true "Hypertensive" * p7 / (new_P [p0, p1, p2, p3, p4, p5, p6, p7] s true).sum)) / Real.log 2) + (1 - (new_P [p0, p1, p2, p3, p4, p5, p6, p7] s true).sum) * ((Real.negMulLog (likelihood s false "Migraine" * p0 / (new_P [p0, p1, p2, p3, p4, p5, p6, p7] s false).sum) + Real.negMulLog (likelihood s false "Tension-Type" * p1 / (new_P [p0, p1, p2, p3, p4, p5, p6, p7] s false).sum) + Real.negMulLog (likelihood s false "Cluster" * p2 / (new_P [p0, p1, p2, p3, p4, p5, p6, p7] s false).sum) + Real.negMulLog (likelihood s false "Sinus" * p3 / (new_P [p0, p1, p2, p3, p4, p5, p6, p7] s false).sum) + Real.negMulLog (likelihood s false "Medication Overuse" * p4 / (new_P [p0, p1, p2, p3, p4, p5, p6, p7] s false).sum) + Real.negMulLog (likelihood s false "Cervicogenic" * p5 / (new_P [p0, p1, p2, p3, p4, p5, p6, p7] s false).sum) + Real.negMulLog (likelihood s false "Trigeminal Neuralgia" * p6 / (new_P [p0, p1, p2, p3, p4, p5, p6, p7] s false).sum) + Real.negMulLog (likelihood s false "Hypertensive" * p7 / (new_P [p0, p1, p2, p3, p4, p5, p6, p7] s false).sum)) / Real.log 2))
          = ((Real.negMulLog p0 + Real.negMulLog p1 + Real.negMulLog p2 + Real.negMulLog p3 + Real.negMulLog p4 + Real.negMulLog p5 + Real.negMulLog p6 + Real.negMulLog p7) - ((new_P [p0, p1, p2, p3, p4, p5, p6, p7] s true).sum * (Real.negMulLog (likelihood s true "Migraine" * p0 / (new_P [p0, p1, p2, p3, p4, p5, p6, p7] s true).sum) + Real.negMulLog (likelihood s true "Tension-Type" * p1 / (new_P [p0, p1, p2, p3, p4, p5, p6, p7] s true).sum) + Real.negMulLog (likelihood s true "Cluster" * p2 / (new_P [p0, p1, p2, p3, p4, p5, p6, p7] s true).sum) + Real.negMulLog (likelihood s true "Sinus" * p3 / (new_P [p0, p1, p2, p3, p4, p5, p6, p7] s true).sum) + Real.negMulLog (likelihood s true "Medication Overuse" * p4 / (new_P [p0, p1, p2, p3, p4, p5, p6, p7] s true).sum) + Real.negMulLog (likelihood s true "Cervicogenic" * p5 / (new_P [p0, p1, p2, p3, p4, p5, p6, p7] s true).sum) + Real.negMulLog (likelihood s true "Trigeminal Neuralgia" * p6 / (new_P [p0, p1, p2, p3, p4, p5, p6, p7] s true).sum) + Real.negMulLog (likelihood s true "Hypertensive" * p7 / (new_P [p0, p1, p2, p3, p4, p5, p6, p7] s true).sum)) + (1 - (new_P [p0, p1, p2, p3, p4, p5, p6, p7] s true).sum) * (Real.negMulLog (likelihood s false "Migraine" * p0 / (new_P [p0, p1, p2, p3, p4, p5, p6, p7] s false).sum) + Real.negMulLog (likelihood s false "Tension-Type" * p1 / (new_P [p0, p1, p2, p3, p4, p5, p6, p7] s false).sum) + Real.negMulLog (likelihood s false "Cluster" * p2 / (new_P [p0, p1, p2, p3, p4, p5, p6, p7] s false).sum) + Real.negMulLog (likelihood s false "Sinus" * p3 / (new_P [p0, p1, p2, p3, p4, p5, p6, p7] s false).sum) + Real.negMulLog (likelihood s false "Medication Overuse" * p4 / (new_P [p0, p1, p2, p3, p4, p5, p6, p7] s false).sum) + Real.negMulLog (likelihood s false "Cervicogenic" * p5 / (new_P [p0, p1, p2, p3, p4, p5, p6, p7] s false).sum) + Real.negMulLog (likelihood s false "Trigeminal Neuralgia" * p6 / (new_P [p0, p1, p2, p3, p4, p5, p6, p7] s false).sum) + Real.negMulLog (likelihood s false "Hypertensive" * p7 / (new_P [p0, p1, p2, p3, p4, p5, p6, p7] s false).sum)))) / Real.log 2 := by
        ring
      rw [hIG, hY, hN, hPy, hHP, hHY, hHN, heq]
      exact div_nonneg (by linarith [key]) hL.le

/-! ## The selection loop and `get_next_question` -/

lemma selection_loop_skip (P : List ℝ) : ∀ (u : List String) (m : ℝ) (b : Option String),
    (∀ k ∈ u, calculate_information_gain P k ≤ m) → selection_loop P u m b = (m, b) := by
  intro u
  induction u with
  | nil => intro m b _; rfl
  | cons k0 rest ih =>
    intro m b h
    have hk := h k0 (by simp)
    simp only [selection_loop]
    rw [if_neg (not_lt.2 hk)]
    exact ih m b fun j hj => h j (by simp [hj])

/-- The loop of `get_next_question` returns the first maximizer: whenever some
element beats the running maximum, the result is the gain and key of the first
element attaining the overall maximum. -/
lemma selection_loop_spec (P : List ℝ) : ∀ (u : List String) (m : ℝ) (b : Option String),
    (∃ j ∈ u, m < calculate_information_gain P j) →
    ∃ pre k post, u = pre ++ k :: post ∧
      selection_loop P u m b = (calculate_information_gain P k, some k) ∧
      m < calculate_information_gain P k ∧
      (∀ j ∈ pre, calculate_information_gain P j < calculate_information_gain P k) ∧
      (∀ j ∈ post, calculate_information_gain P j ≤ calculate_information_gain P k) := by
  intro u
  induction u with
  | nil =>
    rintro m b ⟨j, hj, _⟩
    exact absurd hj (List.not_mem_nil j)
  | cons k0 rest ih =>
    intro m b hex
    by_cases hk0 : m < calculate_information_gain P k0
    · by_cases hall : ∀ j ∈ rest,
          calculate_information_gain P j ≤ calculate_information_gain P k0
      · refine ⟨[], k0, rest, rfl, ?_, hk0, by simp, hall⟩
        simp only [selection_loop]
        rw [if_pos hk0]
        exact selection_loop_skip P rest _ _ hall
      · push_neg at hall
        obtain ⟨pre, k, post, hsplit, hres, hlt, hpre, hpost⟩ :=
          ih (calculate_information_gain P k0) (some k0) hall
        refine ⟨k0 :: pre, k, post, by simp [hsplit], ?_, lt_trans hk0 hlt, ?_, hpost⟩
        · simp only [selection_loop]
          rw [if_pos hk0]
          exact hres
        · intro j hj
          rcases List.mem_cons.1 hj with rfl | hj2
          · exact hlt
          · exact hpre j hj2
    · have hex2 : ∃ j ∈ rest, m < calculate_information_gain P j := by
        obtain ⟨j, hj, hmj⟩ := hex
        rcases List.mem_cons.1 hj with rfl | hj2
        · exact absurd hmj hk0
        · exact ⟨j, hj2, hmj⟩
      obtain ⟨pre, k, post, hsplit, hres, hlt, hpre, hpost⟩ := ih m b hex2
      refine ⟨k0 :: pre, k, post, by simp [hsplit], ?_, hlt, ?_, hpost⟩
      · simp only [selection_loop]
        rw [if_neg hk0]
        exact hres
      · intro j hj
        rcases List.mem_cons.1 hj with rfl | hj2
        · exact lt_of_le_of_lt (not_lt.1 hk0) hlt
        · exact hpre j hj2

lemma lookup_eq_some_of_mem_keys : ∀ (l : List (String × String)) (k : String),
    k ∈ l.map Prod.fst → ∃ t, l.lookup k = some t := by
  intro l
  induction l with
  | nil => simp
  | cons kv rest ih =>
    intro k hk
    by_cases he : k = kv.1
    · exact ⟨kv.2, by simp [List.lookup, he]⟩
    · have hk2 : k ∈ rest.map Prod.fst := by
        rw [List.map_cons, List.mem_cons] at hk
        rcases hk with h1 | h1
        · exact absurd h1 he
        · exact h1
      obtain ⟨t, ht⟩ := ih k hk2
      refine ⟨t, ?_⟩
      have hbeq : (k == kv.1) = false := beq_eq_false_iff_ne.2 he
      simp [List.lookup, hbeq, ht]

/-- Master specification of `get_next_question` when some symptom is unasked
and the distribution is valid: it returns the question text, the key and the
gain of the first unasked symptom attaining the maximal information gain. -/
lemma get_next_question_spec {P : List ℝ} (hlen : P.length = NUM_DIAGNOSES)
    (hpos : ∀ x ∈ P, 0 ≤ x) (hsum : P.sum = 1) {asked : List String}
    (hex : ∃ k ∈ symptomKeys, k ∉ asked) :
    ∃ text key pre post,
      get_next_question P asked
        = some (some text, some key, calculate_information_gain P key) ∧
      SYMPTOMS.lookup key = some text ∧
      symptomKeys.filter (fun j => decide (j ∉ asked)) = pre ++ key :: post ∧
      key ∈ symptomKeys ∧ key ∉ asked ∧
      (∀ j ∈ pre, calculate_information_gain P j < calculate_information_gain P key) ∧
      (∀ j ∈ post, calculate_information_gain P j ≤ calculate_information_gain P key) := by
  obtain ⟨k0, hk0s, hk0a⟩ := hex
  have hk0u : k0 ∈ symptomKeys.filter (fun j => decide (j ∉ asked)) := by
    simp [List.mem_filter, hk0s, hk0a]
  have hune : ¬ symptomKeys.filter (fun j => decide (j ∉ asked)) = [] := by
    intro h
    rw [h] at hk0u
    exact List.not_mem_nil k0 hk0u
  have hax : ∃ j ∈ symptomKeys.filter (fun j => decide (j ∉ asked)),
      (-1:ℝ) < calculate_information_gain P j := by
    have hnn : (0:ℝ) ≤ calculate_information_gain P k0 :=
      information_gain_nonneg hlen hpos hsum hk0s
    exact ⟨k0, hk0u, lt_of_lt_of_le (show (-1:ℝ) < 0 by norm_num) hnn⟩
  obtain ⟨pre, k, post, hsplit, hres, hgt, hpre, hpost⟩ :=
    selection_loop_spec P (symptomKeys.filter (fun j => decide (j ∉ asked))) (-1) none hax
  have hku : k ∈ symptomKeys.filter (fun j => decide (j ∉ asked)) := by
    rw [hsplit]
    simp
  have hks : k ∈ symptomKeys ∧ k ∉ asked := by
    simpa [List.mem_filter] using hku
  obtain ⟨t, ht⟩ := lookup_eq_some_of_mem_keys SYMPTOMS k hks.1
  refine ⟨t, k, pre, post, ?_, ht, hsplit, hks.1, hks.2, hpre, hpost⟩
  simp only [get_next_question]
  rw [if_neg hune, hres]
  simp [ht]

lemma get_next_question_exhausted (P : List ℝ) {asked : List String}
    (hall : ∀ k ∈ symptomKeys, k ∈ asked) :
    get_next_question P asked = some (none, none, 0) := by
  have hfilter : symptomKeys.filter (fun j => decide (j ∉ asked)) = [] := by
    rw [List.filter_eq_nil_iff]
    intro a ha
    simp [hall a ha]
  simp only [get_next_question]
  rw [if_pos hfilter]

/-! ## Entropy boundary values -/

lemma log2_eighth : log2 ((1:ℝ)/8) = -3 := by
  rw [log2, if_pos (by norm_num : (0:ℝ) < 1/8), Real.logb]
  have h2 : Real.log 2 ≠ 0 := ne_of_gt (Real.log_pos (by norm_num))
  rw [show (1:ℝ)/8 = 8⁻¹ by norm_num, Real.log_inv,
    show (8:ℝ) = 2 ^ 3 by norm_num, Real.log_pow]
  field_simp

lemma entropy_uniform : calculate_entropy (List.replicate 8 ((1:ℝ)/8)) = 3 := by
  rw [calculate_entropy, List.map_replicate, log2_eighth]
  norm_num [List.sum_replicate, nsmul_eq_mul]

lemma entropy_oneHot (j : Fin 8) : calculate_entropy (oneHot j) = 0 := by
  rw [oneHot, calculate_entropy, List.map_ofFn, List.sum_ofFn]
  rw [Finset.sum_eq_zero, neg_zero]
  intro i _
  by_cases h : i = j <;> simp [h, log2, Function.comp]

lemma entropy_filter_pos (P : List ℝ) :
    calculate_entropy P
      = -((P.filter (fun p => decide (0 < p))).map (fun p => p * log2 p)).sum := by
  induction P with
  | nil => rfl
  | cons a t ih =>
    by_cases h : 0 < a
    · have hf : (a :: t).filter (fun p => decide (0 < p))
          = a :: t.filter (fun p => decide (0 < p)) := by
        simp [List.filter_cons, h]
      rw [calculate_entropy, List.map_cons, List.sum_cons, hf, List.map_cons, List.sum_cons]
      rw [calculate_entropy] at ih
      have ih2 : ((t.map (fun p => p * log2 p)).sum : ℝ)
          = ((t.filter (fun p => decide (0 < p))).map (fun p => p * log2 p)).sum :=
        neg_injective ih
      rw [neg_add, neg_add, ih2]
    · have hf : (a :: t).filter (fun p => decide (0 < p))
          = t.filter (fun p => decide (0 < p)) := by
        simp [List.filter_cons, h]
      rw [calculate_entropy, List.map_cons, List.sum_cons, hf]
      rw [log2, if_neg h, mul_zero, zero_add]
      exact ih

/-! ## Concrete valid distributions used by the witnesses -/

lemma uniform_valid : ValidDist [(1:ℝ)/8, 1/8, 1/8, 1/8, 1/8, 1/8, 1/8, 1/8] := by
  refine ⟨rfl, ?_, by norm_num⟩
  intro x hx
  simp at hx
  rw [hx]
  norm_num

lemma onehot_valid : ValidDist [(1:ℝ), 0, 0, 0, 0, 0, 0, 0] := by
  refine ⟨rfl, ?_, by norm_num⟩
  intro x hx
  simp at hx
  rcases hx with rfl | rfl <;> norm_num

/-! ## Claim theorems -/

/-- C1: for a valid distribution, a catalog symptom and either answer, when
the unnormalized sum is nonzero, `bayesian_update` returns the distribution
whose `i`-th entry is the likelihood of the `i`-th diagnosis times its prior,
divided by the sum of those products over all diagnoses. -/
theorem C1_bayesian_update_formula {P : List ℝ} (hP : ValidDist P)
    {s : String} (hs : s ∈ symptomKeys) (b : Bool)
    (hden : (new_P P s b).sum ≠ 0) :
    ∀ i : Fin 8, (bayesian_update P s b).getD i 0
      = likelihood s b (diag i) * P.getD i 0 / (new_P P s b).sum :=
  fun i => bayesian_update_getD s b i hden

theorem C1_witness :
    ValidDist [(1:ℝ), 0, 0, 0, 0, 0, 0, 0] ∧ "S1" ∈ symptomKeys
    ∧ (new_P [(1:ℝ), 0, 0, 0, 0, 0, 0, 0] "S1" true).sum ≠ 0
    ∧ ∀ i : Fin 8, (bayesian_update [(1:ℝ), 0, 0, 0, 0, 0, 0, 0] "S1" true).getD i 0
        = likelihood "S1" true (diag i) * ([(1:ℝ), 0, 0, 0, 0, 0, 0, 0] : List ℝ).getD i 0
          / (new_P [(1:ℝ), 0, 0, 0, 0, 0, 0, 0] "S1" true).sum := by
  have hne : (new_P [(1:ℝ), 0, 0, 0, 0, 0, 0, 0] "S1" true).sum ≠ 0 := by
    rw [new_P_eight]
    norm_num [show likelihood "S1" true "Migraine" = ((0.90 : ℚ) : ℝ) from rfl]
  exact ⟨onehot_valid, by decide, hne,
    C1_bayesian_update_formula onehot_valid (by decide) true hne⟩

/-- C2: with a valid distribution and at least one unasked symptom,
`get_next_question` returns an unasked catalog symptom whose information gain
is maximal among all unasked symptoms, and every unasked symptom occurring
earlier in catalog order has strictly smaller gain (first maximizer wins). -/
theorem C2_next_question_greedy {P : List ℝ} (hP : ValidDist P)
    {asked : List String} (hex : ∃ k ∈ symptomKeys, k ∉ asked) :
    ∃ text key pre post,
      get_next_question P asked
        = some (some text, some key, calculate_information_gain P key)
      ∧ key ∈ symptomKeys ∧ key ∉ asked
      ∧ symptomKeys.filter (fun j => decide (j ∉ asked)) = pre ++ key :: post
      ∧ (∀ j ∈ symptomKeys.filter (fun j => decide (j ∉ asked)),
          calculate_information_gain P j ≤ calculate_information_gain P key)
      ∧ (∀ j ∈ pre, calculate_information_gain P j < calculate_information_gain P key) := by
  obtain ⟨text, key, pre, post, hres, hlook, hsplit, hkeys, hnask, hpre, hpost⟩ :=
    get_next_question_spec hP.1 hP.2.1 hP.2.2 hex
  refine ⟨text, key, pre, post, hres, hkeys, hnask, hsplit, ?_, hpre⟩
  intro j hj
  rw [hsplit] at hj
  rcases List.mem_append.1 hj with hj1 | hj2
  · exact le_of_lt (hpre j hj1)
  · rcases List.mem_cons.1 hj2 with rfl | hj3
    · exact le_refl _
    · exact hpost j hj3

theorem C2_witness :
    ValidDist [(1:ℝ)/8, 1/8, 1/8, 1/8, 1/8, 1/8, 1/8, 1/8]
    ∧ (∃ k ∈ symptomKeys, k ∉ ([] : List String))
    ∧ ∃ text key pre post,
        get_next_question [(1:ℝ)/8, 1/8, 1/8, 1/8, 1/8, 1/8, 1/8, 1/8] []
          = some (some text, some key,
              calculate_information_gain [(1:ℝ)/8, 1/8, 1/8, 1/8, 1/8, 1/8, 1/8, 1/8] key)
        ∧ key ∈ symptomKeys ∧ key ∉ ([] : List String)
        ∧ symptomKeys.filter (fun j => decide (j ∉ ([] : List String)))
            = pre ++ key :: post
        ∧ (∀ j ∈ symptomKeys.filter (fun j => decide (j ∉ ([] : List String))),
            calculate_information_gain [(1:ℝ)/8, 1/8, 1/8, 1/8, 1/8, 1/8, 1/8, 1/8] j
              ≤ calculate_information_gain [(1:ℝ)/8, 1/8, 1/8, 1/8, 1/8, 1/8, 1/8, 1/8] key)
        ∧ (∀ j ∈ pre, calculate_information_gain [(1:ℝ)/8, 1/8, 1/8, 1/8, 1/8, 1/8, 1/8, 1/8] j
            < calculate_information_gain [(1:ℝ)/8, 1/8, 1/8, 1/8, 1/8, 1/8, 1/8, 1/8] key) :=
  ⟨uniform_valid, ⟨"S1", by decide, by simp⟩,
    C2_next_question_greedy uniform_valid ⟨"S1", by decide, by simp⟩⟩

/-- C3: `calculate_entropy` computes `-Σ pᵢ·log2 pᵢ`; a zero-probability term
contributes exactly `0`; a one-hot distribution has entropy `0` and the
uniform distribution over the 8 diagnoses has entropy `3` bits. -/
theorem C3_calculate_entropy_spec :
    (∀ P : List ℝ, calculate_entropy P = -(P.map (fun p => p * log2 p)).sum)
    ∧ (∀ p : ℝ, p = 0 → p * log2 p = 0)
    ∧ (∀ j : Fin 8, calculate_entropy (oneHot j) = 0)
    ∧ calculate_entropy (List.replicate 8 ((1:ℝ)/8)) = 3 :=
  ⟨fun _ => rfl, fun p hp => by rw [hp, zero_mul], entropy_oneHot, entropy_uniform⟩

theorem C3_witness :
    (0:ℝ) * log2 0 = 0 ∧ calculate_entropy (oneHot 0) = 0
    ∧ calculate_entropy (List.replicate 8 ((1:ℝ)/8)) = 3 :=
  ⟨C3_calculate_entropy_spec.2.1 0 rfl, C3_calculate_entropy_spec.2.2.1 0,
    C3_calculate_entropy_spec.2.2.2⟩

/-- C4: the information gain of a catalog symptom at a valid distribution is
`H(P) - (P(yes)·H(P|yes) + P(no)·H(P|no))` with `P(yes) = Σ CPT[d][s]·P(d)`,
and it is non-negative in exact real arithmetic. -/
theorem C4_information_gain_nonneg {P : List ℝ} (hP : ValidDist P) {s : String}
    (hs : s ∈ symptomKeys) :
    calculate_information_gain P s
      = calculate_entropy P
        - (P_yes P s * calculate_entropy (bayesian_update P s true)
          + (1 - P_yes P s) * calculate_entropy (bayesian_update P s false))
    ∧ 0 ≤ calculate_information_gain P s :=
  ⟨rfl, information_gain_nonneg hP.1 hP.2.1 hP.2.2 hs⟩

theorem C4_witness :
    ValidDist [(1:ℝ)/8, 1/8, 1/8, 1/8, 1/8, 1/8, 1/8, 1/8] ∧ "S1" ∈ symptomKeys
    ∧ 0 ≤ calculate_information_gain [(1:ℝ)/8, 1/8, 1/8, 1/8, 1/8, 1/8, 1/8, 1/8] "S1" :=
  ⟨uniform_valid, by decide,
    (C4_information_gain_nonneg uniform_valid (by decide)).2⟩

/-- C5: law of total probability round-trip: mixing the two posteriors with
weights `P(yes)` and `1 - P(yes)` reproduces the prior componentwise,
exactly. -/
theorem C5_total_probability {P : List ℝ} (hP : ValidDist P) {s : String}
    (hs : s ∈ symptomKeys) :
    ∀ i : Fin 8,
      P_yes P s * (bayesian_update P s true).getD i 0
        + (1 - P_yes P s) * (bayesian_update P s false).getD i 0 = P.getD i 0 :=
  fun i => total_probability_entry hP.1 hP.2.1 hP.2.2 hs i

theorem C5_witness :
    ValidDist [(1:ℝ)/8, 1/8, 1/8, 1/8, 1/8, 1/8, 1/8, 1/8] ∧ "S2" ∈ symptomKeys
    ∧ ∀ i : Fin 8,
        P_yes [(1:ℝ)/8, 1/8, 1/8, 1/8, 1/8, 1/8, 1/8, 1/8] "S2"
            * (bayesian_update [(1:ℝ)/8, 1/8, 1/8, 1/8, 1/8, 1/8, 1/8, 1/8] "S2" true).getD i 0
          + (1 - P_yes [(1:ℝ)/8, 1/8, 1/8, 1/8, 1/8, 1/8, 1/8, 1/8] "S2")
            * (bayesian_update [(1:ℝ)/8, 1/8, 1/8, 1/8, 1/8, 1/8, 1/8, 1/8] "S2" false).getD i 0
          = ([(1:ℝ)/8, 1/8, 1/8, 1/8, 1/8, 1/8, 1/8, 1/8] : List ℝ).getD i 0 :=
  ⟨uniform_valid, by decide, C5_total_probability uniform_valid (by decide)⟩

/-- C6: when the unnormalized posterior sums to exactly zero,
`bayesian_update` returns the uniform distribution (every entry `1/8`)
instead of dividing by zero. -/
theorem C6_zero_denominator_uniform (P : List ℝ) (s : String) (b : Bool)
    (h : (new_P P s b).sum = 0) :
    bayesian_update P s b = List.replicate NUM_DIAGNOSES ((1:ℝ)/8)
    ∧ ∀ i : Fin 8, (bayesian_update P s b).getD i 0 = 1/8 := by
  have he := bayesian_update_of_sum_eq_zero h
  refine ⟨he, fun i => ?_⟩
  rw [he]
  fin_cases i <;> rfl

theorem C6_witness :
    (new_P [(0:ℝ), 0, 0, 0, 0, 0, 0, 0] "S1" true).sum = 0
    ∧ bayesian_update [(0:ℝ), 0, 0, 0, 0, 0, 0, 0] "S1" true
        = List.replicate NUM_DIAGNOSES ((1:ℝ)/8)
    ∧ ∀ i : Fin 8, (bayesian_update [(0:ℝ), 0, 0, 0, 0, 0, 0, 0] "S1" true).getD i 0 = 1/8 := by
  have h : (new_P [(0:ℝ), 0, 0, 0, 0, 0, 0, 0] "S1" true).sum = 0 := by
    rw [new_P_eight]
    simp
  obtain ⟨h1, h2⟩ := C6_zero_denominator_uniform _ _ _ h
  exact ⟨h, h1, h2⟩

/-- C7: when every catalog symptom has been asked, `get_next_question`
returns the Python triple `(None, None, 0)` as a normal value rather than
raising. -/
theorem C7_exhausted_signal (P : List ℝ) {asked : List String}
    (hall : ∀ k ∈ symptomKeys, k ∈ asked) :
    get_next_question P asked = some (none, none, 0) :=
  get_next_question_exhausted P hall

theorem C7_witness :
    (∀ k ∈ symptomKeys, k ∈ symptomKeys)
    ∧ get_next_question [(1:ℝ)/8, 1/8, 1/8, 1/8, 1/8, 1/8, 1/8, 1/8] symptomKeys = some (none, none, 0) :=
  ⟨fun _ hk => hk, C7_exhausted_signal _ (fun _ hk => hk)⟩

/-- C8: for a valid distribution and a catalog symptom, both branches of
`bayesian_update` return a valid distribution: length 8, non-negative
entries, summing exactly to 1. -/
theorem C8_update_is_distribution {P : List ℝ} (hP : ValidDist P) {s : String}
    (hs : s ∈ symptomKeys) (b : Bool) : ValidDist (bayesian_update P s b) :=
  ⟨bayesian_update_length P s b, bayesian_update_nonneg hP.2.1 hs b,
    bayesian_update_sum_eq_one P s b⟩

theorem C8_witness :
    ValidDist [(1:ℝ)/8, 1/8, 1/8, 1/8, 1/8, 1/8, 1/8, 1/8] ∧ "S1" ∈ symptomKeys
    ∧ ValidDist (bayesian_update [(1:ℝ)/8, 1/8, 1/8, 1/8, 1/8, 1/8, 1/8, 1/8] "S1" true) :=
  ⟨uniform_valid, by decide,
    C8_update_is_distribution uniform_valid (by decide) true⟩

/-- C9 counterexample: at the one-hot prior with every symptom but `"S1"`
already asked, `get_next_question` returns the triple whose FIRST component
is the question text and whose SECOND component is the symptom identifier
`"S1"` — not the `(symptom id, question text, gain)` order the claim
states. -/
theorem C9_counterexample :
    get_next_question [(1:ℝ), 0, 0, 0, 0, 0, 0, 0]
        ["S2", "S3", "S4", "S5", "S6", "S7", "S8", "S9", "S10", "S11", "S12", "S13", "S14", "S15", "S16", "S17", "S18", "S19", "S20", "S21", "S22", "S23", "S24", "S25", "S26", "S27", "S28", "S29", "S30", "S31", "S32", "S33", "S34", "S35", "S36"]
      = some (some "Is your pain best described as throbbing or pulsating?", some "S1", 0)
    ∧ ("Is your pain best described as throbbing or pulsating?" : String) ≠ "S1" := by
  have hc : likelihood "S1" true "Migraine" = ((0.90 : ℚ) : ℝ) := rfl
  have hcf : likelihood "S1" false "Migraine" = 1 - ((0.90 : ℚ) : ℝ) := rfl
  have hst : (new_P [(1:ℝ), 0, 0, 0, 0, 0, 0, 0] "S1" true).sum = ((0.90:ℚ):ℝ) := by
    rw [new_P_eight]
    simp [hc]
  have hsf : (new_P [(1:ℝ), 0, 0, 0, 0, 0, 0, 0] "S1" false).sum = 1 - ((0.90:ℚ):ℝ) := by
    rw [new_P_eight]
    simp [hcf]
  have hnt : (new_P [(1:ℝ), 0, 0, 0, 0, 0, 0, 0] "S1" true).sum ≠ 0 := by
    rw [hst]; norm_num
  have hnf : (new_P [(1:ℝ), 0, 0, 0, 0, 0, 0, 0] "S1" false).sum ≠ 0 := by
    rw [hsf]; norm_num
  have hyt : bayesian_update [(1:ℝ), 0, 0, 0, 0, 0, 0, 0] "S1" true = [(1:ℝ), 0, 0, 0, 0, 0, 0, 0] := by
    rw [bayesian_update_of_sum_ne_zero hnt, hst, new_P_eight]
    norm_num [hc]
  have hyf : bayesian_update [(1:ℝ), 0, 0, 0, 0, 0, 0, 0] "S1" false = [(1:ℝ), 0, 0, 0, 0, 0, 0, 0] := by
    rw [bayesian_update_of_sum_ne_zero hnf, hsf, new_P_eight]
    norm_num [hcf]
  have hH0 : calculate_entropy [(1:ℝ), 0, 0, 0, 0, 0, 0, 0] = 0 := by
    simp [calculate_entropy, log2]
  have hIG : calculate_information_gain [(1:ℝ), 0, 0, 0, 0, 0, 0, 0] "S1" = 0 := by
    have hform : calculate_information_gain [(1:ℝ), 0, 0, 0, 0, 0, 0, 0] "S1"
        = calculate_entropy [(1:ℝ), 0, 0, 0, 0, 0, 0, 0]
          - (P_yes [(1:ℝ), 0, 0, 0, 0, 0, 0, 0] "S1"
              * calculate_entropy (bayesian_update [(1:ℝ), 0, 0, 0, 0, 0, 0, 0] "S1" true)
            + (1 - P_yes [(1:ℝ), 0, 0, 0, 0, 0, 0, 0] "S1")
              * calculate_entropy (bayesian_update [(1:ℝ), 0, 0, 0, 0, 0, 0, 0] "S1" false)) := rfl
    rw [hform, hyt, hyf, hH0]
    ring
  constructor
  · have hfilter : symptomKeys.filter
        (fun j => decide (j ∉ (["S2", "S3", "S4", "S5", "S6", "S7", "S8", "S9", "S10", "S11", "S12", "S13", "S14", "S15", "S16", "S17", "S18", "S19", "S20", "S21", "S22", "S23", "S24", "S25", "S26", "S27", "S28", "S29", "S30", "S31", "S32", "S33", "S34", "S35", "S36"] : List String)))
        = ["S1"] := by decide
    simp only [get_next_question]
    rw [hfilter, if_neg (show ¬ (["S1"] : List String) = [] by simp)]
    simp only [selection_loop]
    rw [hIG, if_pos (show (-1:ℝ) < 0 by norm_num)]
    simp only [selection_loop]
    rfl
  · decide

/-- C9 amended: when a question is available (valid distribution, some
symptom unasked), `get_next_question` returns the triple in the order
(question text, symptom id, gain): the first component is the selected
symptom's question text and the second its identifier. -/
theorem C9_result_component_order {P : List ℝ} (hP : ValidDist P)
    {asked : List String} (hex : ∃ k ∈ symptomKeys, k ∉ asked) :
    ∃ text key,
      get_next_question P asked
        = some (some text, some key, calculate_information_gain P key)
      ∧ key ∈ symptomKeys ∧ SYMPTOMS.lookup key = some text := by
  obtain ⟨text, key, pre, post, hres, hlook, hsplit, hkeys, hnask, hpre, hpost⟩ :=
    get_next_question_spec hP.1 hP.2.1 hP.2.2 hex
  exact ⟨text, key, hres, hkeys, hlook⟩

theorem C9_witness :
    ValidDist [(1:ℝ)/8, 1/8, 1/8, 1/8, 1/8, 1/8, 1/8, 1/8]
    ∧ (∃ k ∈ symptomKeys, k ∉ (["S1"] : List String))
    ∧ ∃ text key,
        get_next_question [(1:ℝ)/8, 1/8, 1/8, 1/8, 1/8, 1/8, 1/8, 1/8] ["S1"]
          = some (some text, some key,
              calculate_information_gain [(1:ℝ)/8, 1/8, 1/8, 1/8, 1/8, 1/8, 1/8, 1/8] key)
        ∧ key ∈ symptomKeys ∧ SYMPTOMS.lookup key = some text :=
  ⟨uniform_valid, ⟨"S2", by decide, by decide⟩,
    C9_result_component_order uniform_valid ⟨"S2", by decide, by decide⟩⟩

/-- C10: `calculate_entropy` is total over arbitrary real lists: `log2` sends
every non-positive argument to `0`, hence every non-positive entry contributes
exactly `0` and the entropy only depends on the strictly positive entries;
malformed distributions are accepted, not rejected. -/
theorem C10_entropy_total_on_malformed :
    (∀ p : ℝ, p ≤ 0 → log2 p = 0)
    ∧ (∀ (P : List ℝ) (p : ℝ), p ∈ P → p ≤ 0 → p * log2 p = 0)
    ∧ (∀ P : List ℝ, calculate_entropy P
        = -((P.filter (fun p => decide (0 < p))).map (fun p => p * log2 p)).sum) :=
  ⟨fun p hp => by rw [log2, if_neg (not_lt.2 hp)],
    fun P p _ hp => by rw [log2, if_neg (not_lt.2 hp), mul_zero],
    entropy_filter_pos⟩

theorem C10_witness :
    log2 (-1 : ℝ) = 0
    ∧ (-1 : ℝ) * log2 (-1 : ℝ) = 0
    ∧ calculate_entropy [(-1 : ℝ), 1/2]
        = -((([(-1 : ℝ), 1/2]).filter (fun p => decide (0 < p))).map
            (fun p => p * log2 p)).sum :=
  ⟨C10_entropy_total_on_malformed.1 (-1) (by norm_num),
    C10_entropy_total_on_malformed.2.1 [(-1 : ℝ), 1/2] (-1) (by simp) (by norm_num),
    C10_entropy_total_on_malformed.2.2 [(-1 : ℝ), 1/2]⟩

end InforMED
